import Mathlib

/-!
Verification of the scope-tracking rename pass of the Luau deobfuscator
(`he.py`): the `Deobfuscator` visitor, its name generator and scope stack,
the `preprocess_luau` text pass, and the request handler `index`.

The `Deobfuscator` class subclasses `luaparser`'s `ast.ASTVisitor`, whose
source is not part of this repository.  That harness is modelled from the
spec's traversal contract (one pre-order, depth-first, left-to-right
visit of every node) together with the Python visitor convention that the
code itself forces: `visit(node)` dispatches to `visit_<Kind>` when the
subclass defines one and to `generic_visit` otherwise, and
`generic_visit(node)` visits the *children* of `node` (each child again
through the dispatching `visit`), never `node` itself — `visit_Name` and
`visit_Block` both end by calling `self.generic_visit(node)` on the node
they are visiting, which would loop forever under any semantics that
re-dispatched the node itself.  `visit` applied to a list visits each
element through the dispatcher; applied to a string or `None` it does
nothing.  Errors that the Python code can raise while visiting
(attribute errors on nodes of unexpected shape) are modelled with
`Except String`.
-/

/-! ## Decimal rendering of the counter (Python `f"var{self.counter}"`) -/

/-- Decimal digit list of `n`, most significant first; model of how a
Python f-string renders a non-negative integer. -/
def decChars (n : Nat) : List Char :=
  if n < 10 then [Nat.digitChar n]
  else decChars (n / 10) ++ [Nat.digitChar (n % 10)]
termination_by n
decreasing_by
  exact Nat.div_lt_self (by omega) (by omega)

/-- Decimal rendering of `n` as a string. -/
def decStr (n : Nat) : String := String.mk (decChars n)

/-- Numeric value of a decimal digit character (left inverse of
`Nat.digitChar` on digits below 10). -/
def charVal (c : Char) : Nat := c.toNat - 48

/-- Value of a most-significant-first digit list. -/
def digitsVal (l : List Char) : Nat := l.foldl (fun a c => 10 * a + charVal c) 0

/-! ## Scope stack and name generator (he.py lines 8-22) -/

/-- One lexical scope: original name to generated name.  Python uses a
dict with assignment-overwrite; an association list with most recent
binding first and first-match lookup has the same lookup behaviour. -/
abbrev Scope := List (String × String)

/-- Renamer state: the scope stack (innermost scope at the head; Python
keeps it last and iterates `reversed(self.scopes)`) and the name
counter. -/
structure St where
  scopes : List Scope
  counter : Nat
deriving Repr

/-- `Deobfuscator.__init__`: `self.scopes = [{}]`, `self.counter = 0`. -/
def initSt : St := ⟨[[]], 0⟩

/-- `new_name` (he.py 14-16): increment the counter, return
`f"var{self.counter}"`. -/
def new_name (st : St) : String × St :=
  let c := st.counter + 1
  ("var" ++ decStr c, { st with counter := c })

/-- `push_scope` (he.py 18-19). -/
def push_scope (st : St) : St := { st with scopes := [] :: st.scopes }

/-- `pop_scope` (he.py 21-22).  Python `list.pop` raises on an empty
stack; the renamer balances every push with one pop starting from the
nonempty initial stack, so that case is unreachable and is modelled as a
no-op. -/
def pop_scope (st : St) : St := { st with scopes := st.scopes.tail }

/-- `self.scopes[-1][old] = new`: record a binding in the innermost
scope. -/
def declare (st : St) (old nw : String) : St :=
  { st with scopes :=
      match st.scopes with
      | [] => [[(old, nw)]]
      | s :: r => ((old, nw) :: s) :: r }

/-- `visit_Name`'s scope search (he.py 25-28): innermost scope first,
first scope containing the name wins. -/
def lookupScopes : List Scope → String → Option String
  | [], _ => none
  | s :: r, x =>
    match s.lookup x with
    | some y => some y
    | none => lookupScopes r x

/-! ## The AST (luaparser node shapes, as consumed by he.py)

Node kinds and child shapes follow the tree the parser hands the
renamer, as the spec's external-interface section describes it: every
node carries a kind tag and kind-specific children, identifier nodes a
textual name, blocks an ordered statement sequence, functions an
optional name plus ordered parameters and a body, loops their control
expressions and a body, if-chains ordered (condition, body) parts.
`For` is the numeric loop (handler `visit_For`), `Forin` the generic
one; `Str` is the string-literal kind. -/

inductive Node where
  | Chunk (body : Node)
  | Block (body : List Node)
  | Name (id : String)
  | Number (v : Int)
  | Str (v : String)
  | Nil
  | TrueExpr
  | FalseExpr
  | Break
  | BinOp (op : String) (left : Node) (right : Node)
  | Call (func : Node) (args : List Node)
  | Function (fname : Option Node) (args : List Node) (body : Node)
  | LocalFunction (fname : Node) (args : List Node) (body : Node)
  | LocalAssign (targets : List Node) (values : List Node)
  | For (target : Node) (start : Node) (stop : Node) (step : Option Node) (body : Node)
  | Forin (targets : List Node) (iter : List Node) (body : Node)
  | While (test : Node) (body : Node)
  | Repeat (body : Node) (test : Node)
  | If (test : Node) (body : Node) (orelse : List Node)
  | ElseIf (test : Node) (body : Node)
  | Do (body : Node)
  | Return (values : List Node)

/-- The parameter-declaration loops of `visit_Function`,
`visit_LocalFunction` (he.py 40-44, 54-58) and the target loop of
`visit_Forin` (he.py 88-92): `old = arg.id; new = self.new_name();
arg.id = new; self.scopes[-1][old] = new`, left to right.  A non-`Name`
element makes `arg.id` raise an `AttributeError`. -/
def declare_args (st : St) : List Node → Except String (St × List Node)
  | [] => .ok (st, [])
  | .Name old :: rest =>
    let (nw, st1) := new_name st
    let st2 := declare st1 old nw
    match declare_args st2 rest with
    | .error e => .error e
    | .ok (st3, rest1) => .ok (st3, .Name nw :: rest1)
  | _ :: _ => .error "AttributeError: id"

mutual

/-- `ASTVisitor.visit` on a single node.  Modelled from the spec: the
base class lives in the external `luaparser` package, absent from src/;
the spec's traversal contract (one pre-order, depth-first, left-to-right
visit of every node) fixes it as a dispatcher that calls the
`visit_<Kind>` method the `Deobfuscator` defines for the node's kind and
falls back to `generic_visit` for every other kind.  Each `visit_<Kind>`
body is translated clause by clause from he.py (line numbers in
comments).
Where a handler calls `self.generic_visit` on the very node being
visited (`visit_Name`, `visit_Block`) or where a kind has no handler at
all, the child-visiting behaviour of `generic_visit` for that one kind
is written out in place, so that every recursive call is on a strict
subterm. -/
def visit (st : St) : Node → Except String (St × Node)
  -- visit_Name (24-29): innermost-to-outermost search, rewrite on first
  -- match, unchanged on no match; the trailing generic_visit(node)
  -- visits the children of a Name, of which there are none.
  | .Name id =>
    match lookupScopes st.scopes id with
    | some nw => .ok (st, .Name nw)
    | none => .ok (st, .Name id)
  -- visit_Block (31-34): push, generic_visit(node) — which visits the
  -- node's statement list — then pop.
  | .Block stmts =>
    let st1 := push_scope st
    match visit_list st1 stmts with
    | .error e => .error e
    | .ok (st2, stmts1) => .ok (pop_scope st2, .Block stmts1)
  -- visit_Function (36-46): if node.name: self.visit(node.name) — a full
  -- dispatched visit, so a Name function name is resolved as a use —
  -- then push, declare the parameters left to right, visit the body, pop.
  | .Function fname args body =>
    match ((match fname with
            | some nm =>
              match visit st nm with
              | .error e => .error e
              | .ok (st1, nm1) => .ok (st1, some nm1)
            | none => .ok (st, none)) : Except String (St × Option Node)) with
    | .error e => .error e
    | .ok (st1, fname1) =>
      let st2 := push_scope st1
      match declare_args st2 args with
      | .error e => .error e
      | .ok (st3, args1) =>
        match generic_visit st3 body with
        | .error e => .error e
        | .ok (st4, body1) => .ok (pop_scope st4, .Function fname1 args1 body1)
  -- visit_LocalFunction (48-60): bind the function's own name in the
  -- enclosing scope, then open the function scope, declare parameters,
  -- visit the body, pop.
  | .LocalFunction fname args body =>
    match fname with
    | .Name fid =>
      let (nw, st1) := new_name st
      let st2 := declare st1 fid nw
      let st3 := push_scope st2
      match declare_args st3 args with
      | .error e => .error e
      | .ok (st4, args1) =>
        match generic_visit st4 body with
        | .error e => .error e
        | .ok (st5, body1) => .ok (pop_scope st5, .LocalFunction (.Name nw) args1 body1)
    | _ => .error "AttributeError: id"
  -- visit_LocalAssign (62-70): generic_visit(node.values) — a list, so
  -- every element is dispatched — then the target loop.
  | .LocalAssign targets values =>
    match visit_list st values with
    | .error e => .error e
    | .ok (st1, values1) =>
      match visit_targets st1 targets with
      | .error e => .error e
      | .ok (st2, targets1) => .ok (st2, .LocalAssign targets1 values1)
  -- visit_For (72-83): child-visit start/stop/step, push, declare the
  -- loop variable, visit the body, pop.
  | .For target start stop step body =>
    match generic_visit st start with
    | .error e => .error e
    | .ok (st1, start1) =>
      match generic_visit st1 stop with
      | .error e => .error e
      | .ok (st2, stop1) =>
        match generic_visit_opt st2 step with
        | .error e => .error e
        | .ok (st3, step1) =>
          let st4 := push_scope st3
          match target with
          | .Name old =>
            let (nw, st5) := new_name st4
            let st6 := declare st5 old nw
            match generic_visit st6 body with
            | .error e => .error e
            | .ok (st7, body1) =>
              .ok (pop_scope st7, .For (.Name nw) start1 stop1 step1 body1)
          | _ => .error "AttributeError: id"
  -- visit_Forin (85-94): node.iter is a list of expressions.
  | .Forin targets iter body =>
    match visit_list st iter with
    | .error e => .error e
    | .ok (st1, iter1) =>
      let st2 := push_scope st1
      match declare_args st2 targets with
      | .error e => .error e
      | .ok (st3, targets1) =>
        match generic_visit st3 body with
        | .error e => .error e
        | .ok (st4, body1) => .ok (pop_scope st4, .Forin targets1 iter1 body1)
  -- visit_While (96-100).
  | .While test body =>
    match generic_visit st test with
    | .error e => .error e
    | .ok (st1, test1) =>
      let st2 := push_scope st1
      match generic_visit st2 body with
      | .error e => .error e
      | .ok (st3, body1) => .ok (pop_scope st3, .While test1 body1)
  -- visit_Repeat (102-106): body then test inside the same pushed scope.
  | .Repeat body test =>
    let st1 := push_scope st
    match generic_visit st1 body with
    | .error e => .error e
    | .ok (st2, body1) =>
      match generic_visit st2 test with
      | .error e => .error e
      | .ok (st3, test1) => .ok (pop_scope st3, .Repeat body1 test1)
  -- visit_If (108-118).
  | .If test body orelse =>
    match generic_visit st test with
    | .error e => .error e
    | .ok (st1, test1) =>
      let st2 := push_scope st1
      match generic_visit st2 body with
      | .error e => .error e
      | .ok (st3, body1) =>
        let st4 := pop_scope st3
        match visit_orelse st4 orelse with
        | .error e => .error e
        | .ok (st5, orelse1) => .ok (st5, .If test1 body1 orelse1)
  -- visit_Do (120-123).
  | .Do body =>
    let st1 := push_scope st
    match generic_visit st1 body with
    | .error e => .error e
    | .ok (st2, body1) => .ok (pop_scope st2, .Do body1)
  -- Kinds with no visit_ method fall back to generic_visit: the node's
  -- children are visited in order through the dispatcher and the node is
  -- rebuilt, with no scope effect of its own.
  | .Chunk body =>
    match visit st body with
    | .error e => .error e
    | .ok (s1, b1) => .ok (s1, .Chunk b1)
  | .Number v => .ok (st, .Number v)
  | .Str v => .ok (st, .Str v)
  | .Nil => .ok (st, .Nil)
  | .TrueExpr => .ok (st, .TrueExpr)
  | .FalseExpr => .ok (st, .FalseExpr)
  | .Break => .ok (st, .Break)
  | .BinOp op l r =>
    match visit st l with
    | .error e => .error e
    | .ok (s1, l1) =>
      match visit s1 r with
      | .error e => .error e
      | .ok (s2, r1) => .ok (s2, .BinOp op l1 r1)
  | .Call f args =>
    match visit st f with
    | .error e => .error e
    | .ok (s1, f1) =>
      match visit_list s1 args with
      | .error e => .error e
      | .ok (s2, a1) => .ok (s2, .Call f1 a1)
  | .ElseIf test body =>
    match visit st test with
    | .error e => .error e
    | .ok (s1, t1) =>
      match visit s1 body with
      | .error e => .error e
      | .ok (s2, b1) => .ok (s2, .ElseIf t1 b1)
  | .Return values =>
    match visit_list st values with
    | .error e => .error e
    | .ok (s1, v1) => .ok (s1, .Return v1)
termination_by structural x => x

/-- `ASTVisitor.generic_visit` on a single node.  Modelled from the
spec: visit the node's children, in attribute order, each through the
dispatching `visit`; the node itself is not dispatched — the only
semantics under which `visit_Name` and `visit_Block`, which call
`self.generic_visit(node)` on the node being visited, terminate.  String
and integer fields are not nodes and are skipped. -/
def generic_visit (st : St) : Node → Except String (St × Node)
  | .Chunk body =>
    match visit st body with
    | .error e => .error e
    | .ok (s1, b1) => .ok (s1, .Chunk b1)
  | .Block stmts =>
    match visit_list st stmts with
    | .error e => .error e
    | .ok (s1, l1) => .ok (s1, .Block l1)
  | .Name id => .ok (st, .Name id)
  | .Number v => .ok (st, .Number v)
  | .Str v => .ok (st, .Str v)
  | .Nil => .ok (st, .Nil)
  | .TrueExpr => .ok (st, .TrueExpr)
  | .FalseExpr => .ok (st, .FalseExpr)
  | .Break => .ok (st, .Break)
  | .BinOp op l r =>
    match visit st l with
    | .error e => .error e
    | .ok (s1, l1) =>
      match visit s1 r with
      | .error e => .error e
      | .ok (s2, r1) => .ok (s2, .BinOp op l1 r1)
  | .Call f args =>
    match visit st f with
    | .error e => .error e
    | .ok (s1, f1) =>
      match visit_list s1 args with
      | .error e => .error e
      | .ok (s2, a1) => .ok (s2, .Call f1 a1)
  | .Function fname args body =>
    match visit_opt st fname with
    | .error e => .error e
    | .ok (s1, fn1) =>
      match visit_list s1 args with
      | .error e => .error e
      | .ok (s2, a1) =>
        match visit s2 body with
        | .error e => .error e
        | .ok (s3, b1) => .ok (s3, .Function fn1 a1 b1)
  | .LocalFunction fname args body =>
    match visit st fname with
    | .error e => .error e
    | .ok (s1, fn1) =>
      match visit_list s1 args with
      | .error e => .error e
      | .ok (s2, a1) =>
        match visit s2 body with
        | .error e => .error e
        | .ok (s3, b1) => .ok (s3, .LocalFunction fn1 a1 b1)
  | .LocalAssign targets values =>
    match visit_list st targets with
    | .error e => .error e
    | .ok (s1, t1) =>
      match visit_list s1 values with
      | .error e => .error e
      | .ok (s2, v1) => .ok (s2, .LocalAssign t1 v1)
  | .For target start stop step body =>
    match visit st target with
    | .error e => .error e
    | .ok (s1, tg1) =>
      match visit s1 start with
      | .error e => .error e
      | .ok (s2, a1) =>
        match visit s2 stop with
        | .error e => .error e
        | .ok (s3, z1) =>
          match visit_opt s3 step with
          | .error e => .error e
          | .ok (s4, sp1) =>
            match visit s4 body with
            | .error e => .error e
            | .ok (s5, b1) => .ok (s5, .For tg1 a1 z1 sp1 b1)
  | .Forin targets iter body =>
    match visit_list st targets with
    | .error e => .error e
    | .ok (s1, t1) =>
      match visit_list s1 iter with
      | .error e => .error e
      | .ok (s2, i1) =>
        match visit s2 body with
        | .error e => .error e
        | .ok (s3, b1) => .ok (s3, .Forin t1 i1 b1)
  | .While test body =>
    match visit st test with
    | .error e => .error e
    | .ok (s1, t1) =>
      match visit s1 body with
      | .error e => .error e
      | .ok (s2, b1) => .ok (s2, .While t1 b1)
  | .Repeat body test =>
    match visit st body with
    | .error e => .error e
    | .ok (s1, b1) =>
      match visit s1 test with
      | .error e => .error e
      | .ok (s2, t1) => .ok (s2, .Repeat b1 t1)
  | .If test body orelse =>
    match visit st test with
    | .error e => .error e
    | .ok (s1, t1) =>
      match visit s1 body with
      | .error e => .error e
      | .ok (s2, b1) =>
        match visit_list s2 orelse with
        | .error e => .error e
        | .ok (s3, o1) => .ok (s3, .If t1 b1 o1)
  | .ElseIf test body =>
    match visit st test with
    | .error e => .error e
    | .ok (s1, t1) =>
      match visit s1 body with
      | .error e => .error e
      | .ok (s2, b1) => .ok (s2, .ElseIf t1 b1)
  | .Do body =>
    match visit st body with
    | .error e => .error e
    | .ok (s1, b1) => .ok (s1, .Do b1)
  | .Return values =>
    match visit_list st values with
    | .error e => .error e
    | .ok (s1, v1) => .ok (s1, .Return v1)
termination_by structural x => x

/-- `ASTVisitor.visit` on a list: visit each element through the
dispatcher, in order. -/
def visit_list (st : St) : List Node → Except String (St × List Node)
  | [] => .ok (st, [])
  | n :: rest =>
    match visit st n with
    | .error e => .error e
    | .ok (s1, n1) =>
      match visit_list s1 rest with
      | .error e => .error e
      | .ok (s2, l1) => .ok (s2, n1 :: l1)
termination_by structural x => x

/-- `ASTVisitor.visit` on an optional child (`None` is skipped). -/
def visit_opt (st : St) : Option Node → Except String (St × Option Node)
  | none => .ok (st, none)
  | some n =>
    match visit st n with
    | .error e => .error e
    | .ok (s1, n1) => .ok (s1, some n1)
termination_by structural x => x

/-- `generic_visit` on an optional child guarded by a Python truthiness
test (`if node.step:`, he.py 75-76). -/
def generic_visit_opt (st : St) : Option Node → Except String (St × Option Node)
  | none => .ok (st, none)
  | some n =>
    match generic_visit st n with
    | .error e => .error e
    | .ok (s1, n1) => .ok (s1, some n1)
termination_by structural x => x

/-- The target loop of `visit_LocalAssign` (he.py 64-70):
`generic_visit(target)` (the children of the target, none for a Name),
then, if the target is a Name, fresh-name it and record the binding;
non-Name targets are left alone. -/
def visit_targets (st : St) : List Node → Except String (St × List Node)
  | [] => .ok (st, [])
  | t :: rest =>
    match generic_visit st t with
    | .error e => .error e
    | .ok (s1, t1) =>
      match t1 with
      | .Name old =>
        let (nw, s2) := new_name s1
        let s3 := declare s2 old nw
        match visit_targets s3 rest with
        | .error e => .error e
        | .ok (s4, l1) => .ok (s4, .Name nw :: l1)
      | _ =>
        match visit_targets s1 rest with
        | .error e => .error e
        | .ok (s2, l1) => .ok (s2, t1 :: l1)
termination_by structural x => x

/-- The orelse loop of `visit_If` (he.py 113-118). -/
def visit_orelse (st : St) : List Node → Except String (St × List Node)
  | [] => .ok (st, [])
  | oe :: rest =>
    match visit_orelse_elem st oe with
    | .error e => .error e
    | .ok (s1, oe1) =>
      match visit_orelse s1 rest with
      | .error e => .error e
      | .ok (s2, l1) => .ok (s2, oe1 :: l1)
termination_by structural x => x

/-- One iteration of the orelse loop (he.py 114-118): when the element
has a `test` attribute (`If`, `ElseIf`, `While`, `Repeat`),
`generic_visit(oelseif.test)`; then push, `generic_visit(oelseif.body)`,
pop.  For a `Block` the `body` attribute is its statement list;
elements with no `body` attribute raise an `AttributeError`. -/
def visit_orelse_elem (st : St) : Node → Except String (St × Node)
  | .ElseIf t b =>
    match generic_visit st t with
    | .error e => .error e
    | .ok (s1, t1) =>
      let s2 := push_scope s1
      match generic_visit s2 b with
      | .error e => .error e
      | .ok (s3, b1) => .ok (pop_scope s3, .ElseIf t1 b1)
  | .If t b o =>
    match generic_visit st t with
    | .error e => .error e
    | .ok (s1, t1) =>
      let s2 := push_scope s1
      match generic_visit s2 b with
      | .error e => .error e
      | .ok (s3, b1) => .ok (pop_scope s3, .If t1 b1 o)
  | .While t b =>
    match generic_visit st t with
    | .error e => .error e
    | .ok (s1, t1) =>
      let s2 := push_scope s1
      match generic_visit s2 b with
      | .error e => .error e
      | .ok (s3, b1) => .ok (pop_scope s3, .While t1 b1)
  | .Repeat b t =>
    match generic_visit st t with
    | .error e => .error e
    | .ok (s1, t1) =>
      let s2 := push_scope s1
      match generic_visit s2 b with
      | .error e => .error e
      | .ok (s3, b1) => .ok (pop_scope s3, .Repeat b1 t1)
  | .Block stmts =>
    let s1 := push_scope st
    match visit_list s1 stmts with
    | .error e => .error e
    | .ok (s2, l1) => .ok (pop_scope s2, .Block l1)
  | .Do b =>
    let s1 := push_scope st
    match generic_visit s1 b with
    | .error e => .error e
    | .ok (s2, b1) => .ok (pop_scope s2, .Do b1)
  | .Chunk b =>
    let s1 := push_scope st
    match generic_visit s1 b with
    | .error e => .error e
    | .ok (s2, b1) => .ok (pop_scope s2, .Chunk b1)
  | .Function fn args b =>
    let s1 := push_scope st
    match generic_visit s1 b with
    | .error e => .error e
    | .ok (s2, b1) => .ok (pop_scope s2, .Function fn args b1)
  | .LocalFunction fn args b =>
    let s1 := push_scope st
    match generic_visit s1 b with
    | .error e => .error e
    | .ok (s2, b1) => .ok (pop_scope s2, .LocalFunction fn args b1)
  | .For tg a z sp b =>
    let s1 := push_scope st
    match generic_visit s1 b with
    | .error e => .error e
    | .ok (s2, b1) => .ok (pop_scope s2, .For tg a z sp b1)
  | .Forin tg it b =>
    let s1 := push_scope st
    match generic_visit s1 b with
    | .error e => .error e
    | .ok (s2, b1) => .ok (pop_scope s2, .Forin tg it b1)
  | _ => .error "AttributeError: body"
termination_by structural x => x

end


/-! ## `preprocess_luau` (he.py 125-136)

Each `re.sub(pattern, '', code)` is translated as a left-to-right scan
that removes every non-overlapping leftmost match, resuming after the
removed text, exactly as Python's regex engine substitutes.  Character
classes follow Python's ASCII ranges (`\s`, `\w`). -/

/-- Python `\s`. -/
def isPySpace (c : Char) : Bool :=
  c = ' ' || c = '\t' || c = '\n' || c = '\r' || c = '\x0b' || c = '\x0c'

/-- Python `\w` (ASCII range). -/
def isWordChar (c : Char) : Bool := c.isAlphanum || c = '_'

/-- The character class `[\w<>\|\?\[\]\{\}]` of the type-annotation
patterns. -/
def isTypeTokenChar (c : Char) : Bool :=
  isWordChar c || c = '<' || c = '>' || c = '|' || c = '?' ||
  c = '[' || c = ']' || c = '\x7b' || c = '\x7d'

/-- `re.sub(r'--.*$', '', code, flags=re.MULTILINE)` (he.py 128): from
each `--` drop the rest of the line (the newline itself is kept, since
`.` does not match it).  The flag records whether the scan is inside a
match. -/
def stripLineCommentsFrom : Bool → List Char → List Char
  | _, [] => []
  | false, '-' :: '-' :: rest => stripLineCommentsFrom true rest
  | false, c :: rest => c :: stripLineCommentsFrom false rest
  | true, '\n' :: rest => '\n' :: stripLineCommentsFrom false rest
  | true, _ :: rest => stripLineCommentsFrom true rest

/-- First `]]` of a long-bracket close, returning the suffix after it
(the non-greedy `.*?` of `\[\[.*?\]\]` stops at the earliest close); a
position that does not start a `]]` advances by one character. -/
def findClose : List Char → Option (List Char)
  | [] => none
  | c :: rest =>
    if c = ']' ∧ rest.head? = some ']' then some rest.tail
    else findClose rest

/-- The suffix `findClose` returns is strictly shorter than its input. -/
def findClose_shorter : ∀ (l r : List Char), findClose l = some r → r.length < l.length := by
  intro l
  induction l with
  | nil => intro r hr; simp [findClose] at hr
  | cons c cs ih =>
    intro r hr
    rw [findClose] at hr
    split at hr
    · cases hr
      cases cs <;> simp <;> omega
    · exact Nat.lt_trans (ih r hr) (by simp)

/-- `re.sub(r'\[\[.*?\]\]', '', code, flags=re.DOTALL)` (he.py 130): at
each `[[`, drop through the earliest following `]]`; with no close the
match fails and the scan moves on one character. -/
def stripLongBrackets : List Char → List Char
  | [] => []
  | '[' :: '[' :: rest =>
    match h : findClose rest with
    | some r => stripLongBrackets r
    | none => '[' :: stripLongBrackets ('[' :: rest)
  | c :: rest => c :: stripLongBrackets rest
termination_by l => l.length
decreasing_by
  · have := findClose_shorter rest r h
    simp
    omega
  · simp
  · simp

/-- `re.sub(r':\s*[\w<>\|\?\[\]\{\}]+', '', code)` (he.py 132): a colon
followed by optional whitespace and at least one type-token character is
removed wholesale (the class contains no whitespace, so the greedy `\s*`
never backtracks into a successful shorter match). -/
def stripColonTypes : List Char → List Char
  | [] => []
  | ':' :: rest =>
    let after := rest.dropWhile isPySpace
    if after.takeWhile isTypeTokenChar ≠ [] then
      stripColonTypes (after.dropWhile isTypeTokenChar)
    else
      ':' :: stripColonTypes rest
  | c :: rest => c :: stripColonTypes rest
termination_by l => l.length
decreasing_by
  · calc ((List.dropWhile isPySpace rest).dropWhile isTypeTokenChar).length
        ≤ (List.dropWhile isPySpace rest).length := (List.dropWhile_sublist _).length_le
      _ ≤ rest.length := (List.dropWhile_sublist _).length_le
      _ < rest.length + 1 := by omega
  all_goals simp

/-- `re.sub(r'->\s*[\w<>\|\?\[\]\{\}]+', '', code)` (he.py 133); a
failed match advances one character, so only the `-` is emitted before
rescanning from the `>`. -/
def stripArrowTypes : List Char → List Char
  | [] => []
  | '-' :: '>' :: rest =>
    let after := rest.dropWhile isPySpace
    if after.takeWhile isTypeTokenChar ≠ [] then
      stripArrowTypes (after.dropWhile isTypeTokenChar)
    else
      '-' :: stripArrowTypes ('>' :: rest)
  | c :: rest => c :: stripArrowTypes rest
termination_by l => l.length
decreasing_by
  · calc ((List.dropWhile isPySpace rest).dropWhile isTypeTokenChar).length
        ≤ (List.dropWhile isPySpace rest).length := (List.dropWhile_sublist _).length_le
      _ ≤ rest.length := (List.dropWhile_sublist _).length_le
      _ < rest.length + 2 := by omega
  all_goals simp

/-- `re.sub(r'--!\w+', '', code)` (he.py 135). -/
def stripDirectives : List Char → List Char
  | [] => []
  | '-' :: '-' :: '!' :: rest =>
    if rest.takeWhile isWordChar ≠ [] then
      stripDirectives (rest.dropWhile isWordChar)
    else
      '-' :: stripDirectives ('-' :: '!' :: rest)
  | c :: rest => c :: stripDirectives rest
termination_by l => l.length
decreasing_by
  · calc (List.dropWhile isWordChar rest).length
        ≤ rest.length := (List.dropWhile_sublist _).length_le
      _ < rest.length + 3 := by omega
  all_goals simp

/-- Python `str.strip()`: whitespace removed from both ends. -/
def stripEnds (l : List Char) : List Char :=
  ((l.dropWhile isPySpace).reverse.dropWhile isPySpace).reverse

/-- `preprocess_luau` (he.py 125-136): the five substitutions in source
order, then `strip()`. -/
def preprocess_luau (code : String) : String :=
  String.mk (stripEnds (stripDirectives (stripArrowTypes (stripColonTypes
    (stripLongBrackets (stripLineCommentsFrom false code.data))))))

/-! ## The request handler `index` (he.py 140-163)

The parser (`ast.parse`) and printer (`ast.to_pretty_str`) are external
collaborators; the handler is parametrised over them as fallible
functions.  An uploaded file is an optional read result (`.error` models
a failed `file.read()`/decode).  The rendered page is reduced to the
three dynamic fields the template interpolates: the textarea content
`{code}`, the output pane `{output_code}`, and the optional error
banner. -/

inductive Method where
  | GET
  | POST

structure Response where
  code : String
  output_code : String
  error : Option String

/-- The fixed tail of the processing-error message (he.py 163). -/
def procNote : String :=
  "\nNote: For advanced obfuscators like Moonsec v3 or Prometheus, this tool handles basic variable renaming and beautification. For full deobfuscation, consider specialized tools like Prometheus-Deobfuscator on GitHub or manual analysis."

/-- `f"Error processing code: {str(e)}\nNote: ..."` (he.py 163). -/
def procErrorMsg (e : String) : String := "Error processing code: " ++ e ++ procNote

/-- The try-block pipeline (he.py 157-161) applied to already-preprocessed
text: parse, rename with a fresh `Deobfuscator`, pretty-print; the first
failing stage aborts. -/
def pipeline (parse : String → Except String Node)
    (pretty : Node → Except String String) (pre : String) : Except String String :=
  match parse pre with
  | .error e => .error e
  | .ok tree =>
    match visit initSt tree with
    | .error e => .error e
    | .ok (_, tree1) => pretty tree1

/-- `index` (he.py 141-163): on POST, take the file content if a file was
sent (a read failure sets the upload error and leaves `code` empty),
else the pasted text if non-empty (Python truthiness); if `code` is
non-empty, run `code = preprocess_luau(code)` and the pipeline inside
`try`, catching any stage error into the banner.  Note that `code` is
reassigned to the preprocessed text before parsing, so the textarea
echoes the preprocessed text, and `output_code` keeps its initial `''`
whenever any stage raises. -/
def index (parse : String → Except String Node)
    (pretty : Node → Except String String) (method : Method)
    (file : Option (Except Unit String)) (input_code : Option String) : Response :=
  match method with
  | .GET => ⟨"", "", none⟩
  | .POST =>
    let first : String × Option String :=
      match file with
      | some (.ok s) => (s, none)
      | some (.error _) => ("", some "Error reading uploaded file.")
      | none =>
        match input_code with
        | some s => if s = "" then ("", none) else (s, none)
        | none => ("", none)
    if first.1 = "" then ⟨first.1, "", first.2⟩
    else
      let pre := preprocess_luau first.1
      match pipeline parse pretty pre with
      | .error e => ⟨pre, "", some (procErrorMsg e)⟩
      | .ok out => ⟨pre, out, first.2⟩

/-! ## Structural equality up to identifier text

`shapeEq a b` holds when `a` and `b` have the same node kinds, the same
child counts and order, and the same literal values and operators,
differing at most in the text of `Name` identifiers — the only field the
renamer writes. -/

mutual

def shapeEq : Node → Node → Bool
  | .Chunk a, b => match b with
    | .Chunk b1 => shapeEq a b1
    | _ => false
  | .Block a, b => match b with
    | .Block b1 => shapeEqList a b1
    | _ => false
  | .Name _, b => match b with
    | .Name _ => true
    | _ => false
  | .Number a, b => match b with
    | .Number b1 => a == b1
    | _ => false
  | .Str a, b => match b with
    | .Str b1 => a == b1
    | _ => false
  | .Nil, b => match b with
    | .Nil => true
    | _ => false
  | .TrueExpr, b => match b with
    | .TrueExpr => true
    | _ => false
  | .FalseExpr, b => match b with
    | .FalseExpr => true
    | _ => false
  | .Break, b => match b with
    | .Break => true
    | _ => false
  | .BinOp o1 l1 r1, b => match b with
    | .BinOp o2 l2 r2 => o1 == o2 && shapeEq l1 l2 && shapeEq r1 r2
    | _ => false
  | .Call f1 a1, b => match b with
    | .Call f2 a2 => shapeEq f1 f2 && shapeEqList a1 a2
    | _ => false
  | .Function n1 a1 b1, b => match b with
    | .Function n2 a2 b2 => shapeEqOpt n1 n2 && shapeEqList a1 a2 && shapeEq b1 b2
    | _ => false
  | .LocalFunction n1 a1 b1, b => match b with
    | .LocalFunction n2 a2 b2 => shapeEq n1 n2 && shapeEqList a1 a2 && shapeEq b1 b2
    | _ => false
  | .LocalAssign t1 v1, b => match b with
    | .LocalAssign t2 v2 => shapeEqList t1 t2 && shapeEqList v1 v2
    | _ => false
  | .For t1 a1 z1 s1 b1, b => match b with
    | .For t2 a2 z2 s2 b2 =>
      shapeEq t1 t2 && shapeEq a1 a2 && shapeEq z1 z2 && shapeEqOpt s1 s2 && shapeEq b1 b2
    | _ => false
  | .Forin t1 i1 b1, b => match b with
    | .Forin t2 i2 b2 => shapeEqList t1 t2 && shapeEqList i1 i2 && shapeEq b1 b2
    | _ => false
  | .While t1 b1, b => match b with
    | .While t2 b2 => shapeEq t1 t2 && shapeEq b1 b2
    | _ => false
  | .Repeat b1 t1, b => match b with
    | .Repeat b2 t2 => shapeEq b1 b2 && shapeEq t1 t2
    | _ => false
  | .If t1 b1 o1, b => match b with
    | .If t2 b2 o2 => shapeEq t1 t2 && shapeEq b1 b2 && shapeEqList o1 o2
    | _ => false
  | .ElseIf t1 b1, b => match b with
    | .ElseIf t2 b2 => shapeEq t1 t2 && shapeEq b1 b2
    | _ => false
  | .Do b1, b => match b with
    | .Do b2 => shapeEq b1 b2
    | _ => false
  | .Return v1, b => match b with
    | .Return v2 => shapeEqList v1 v2
    | _ => false
termination_by structural a _ => a

def shapeEqList : List Node → List Node → Bool
  | [], b => match b with
    | [] => true
    | _ => false
  | a :: as1, b => match b with
    | b1 :: bs => shapeEq a b1 && shapeEqList as1 bs
    | _ => false
termination_by structural a _ => a

def shapeEqOpt : Option Node → Option Node → Bool
  | none, b => match b with
    | none => true
    | _ => false
  | some a, b => match b with
    | some b1 => shapeEq a b1
    | _ => false
termination_by structural a _ => a

end

/-- Reserved words of the Lua grammar. -/
def luaKeywords : List String :=
  ["and", "break", "do", "else", "elseif", "end", "false", "for", "function",
   "goto", "if", "in", "local", "nil", "not", "or", "repeat", "return",
   "then", "true", "until", "while"]

/-! # Theorems -/

/-! ## Name generator facts -/

theorem charVal_digitChar {n : Nat} (h : n < 10) : charVal (Nat.digitChar n) = n := by
  interval_cases n <;> decide

theorem digitsVal_append (l : List Char) (c : Char) :
    digitsVal (l ++ [c]) = 10 * digitsVal l + charVal c := by
  simp [digitsVal, List.foldl_append]

theorem digitsVal_decChars (n : Nat) : digitsVal (decChars n) = n := by
  induction n using Nat.strong_induction_on with
  | _ n ih =>
    rw [decChars]
    by_cases h : n < 10
    · simp [h, digitsVal, charVal_digitChar h]
    · have hd : n / 10 < n := Nat.div_lt_self (by omega) (by omega)
      simp only [h, if_false, digitsVal_append]
      rw [ih (n / 10) hd, charVal_digitChar (Nat.mod_lt n (by omega))]
      omega

theorem decChars_injective : Function.Injective decChars := by
  intro a b h
  have := congrArg digitsVal h
  rwa [digitsVal_decChars, digitsVal_decChars] at this

theorem decStr_injective : Function.Injective decStr := by
  intro a b h
  exact decChars_injective (congrArg String.data h)

/-- C7: within one run the name generator's counter strictly increases on
every call; the k-th fresh name is `"var"` followed by the decimal digits
of `k`, determined by `k` alone; two distinct calls yield distinct names;
and no generated name is a reserved word of the Lua grammar. -/
theorem c7_name_generator :
    (∀ st : St, (new_name st).2.counter = st.counter + 1 ∧
      (new_name st).1 = "var" ++ decStr (st.counter + 1)) ∧
    (∀ j k : Nat, j ≠ k → "var" ++ decStr j ≠ "var" ++ decStr k) ∧
    (∀ k : Nat, ("var" ++ decStr k) ∉ luaKeywords) := by
  refine ⟨fun st => ⟨rfl, rfl⟩, ?_, ?_⟩
  · intro j k hjk he
    have hd : ("var" : String).data ++ (decStr j).data
        = ("var" : String).data ++ (decStr k).data := by
      have := congrArg String.data he
      simpa [String.data_append] using this
    exact hjk (decStr_injective (String.ext (List.append_cancel_left hd)))
  · intro k hk
    have hv : (("var" ++ decStr k).data).head? = some 'v' := by
      simp [String.data_append]
    simp only [luaKeywords, List.mem_cons, List.not_mem_nil, or_false] at hk
    rcases hk with h | h | h | h | h | h | h | h | h | h | h |
      h | h | h | h | h | h | h | h | h | h | h <;>
      rw [h] at hv <;> simp at hv

theorem c7_witness :
    (new_name initSt).2.counter = 1 ∧
    "var" ++ decStr 1 ≠ "var" ++ decStr 2 ∧
    ("var" ++ decStr 3) ∉ luaKeywords :=
  ⟨(c7_name_generator.1 initSt).1,
   c7_name_generator.2.1 1 2 (by decide),
   c7_name_generator.2.2 3⟩

/-! ## Scope lookup facts -/

theorem lookupScopes_eq_none {scopes : List Scope} {id : String}
    (h : ∀ s ∈ scopes, s.lookup id = none) : lookupScopes scopes id = none := by
  induction scopes with
  | nil => rfl
  | cons s rest ih =>
    rw [lookupScopes, h s (by simp)]
    exact ih fun t ht => h t (by simp [ht])

theorem lookupScopes_first {inner : List Scope} {sc : Scope} {outer : List Scope}
    {id nw : String} (hinner : ∀ s ∈ inner, s.lookup id = none)
    (hsc : sc.lookup id = some nw) :
    lookupScopes (inner ++ sc :: outer) id = some nw := by
  induction inner with
  | nil => rw [List.nil_append, lookupScopes, hsc]
  | cons s rest ih =>
    rw [List.cons_append, lookupScopes, hinner s (by simp)]
    exact ih fun t ht => hinner t (by simp [ht])

/-- C5: `visit_Name` searches the scope stack innermost-to-outermost
(the head of `St.scopes` is the innermost scope): if no scope on the
stack maps the identifier, its text is unchanged; otherwise it is
rewritten to the fresh name recorded in the nearest scope that maps it,
the scopes nearer the use having no entry for it.  The state is not
changed by a use occurrence. -/
theorem c5_name_resolution (st : St) (id : String) :
    ((∀ s ∈ st.scopes, s.lookup id = none) →
      visit st (.Name id) = .ok (st, .Name id)) ∧
    (∀ (inner : List Scope) (sc : Scope) (outer : List Scope) (nw : String),
      st.scopes = inner ++ sc :: outer →
      (∀ s ∈ inner, s.lookup id = none) →
      sc.lookup id = some nw →
      visit st (.Name id) = .ok (st, .Name nw)) := by
  constructor
  · intro h
    rw [visit, lookupScopes_eq_none h]
  · intro inner sc outer nw hstack hinner hsc
    rw [visit, hstack, lookupScopes_first hinner hsc]

theorem c5_witness :
    visit ⟨[[("a", "var9")], [("x", "var1")]], 9⟩ (.Name "x")
      = .ok (⟨[[("a", "var9")], [("x", "var1")]], 9⟩, .Name "var1") ∧
    visit ⟨[[("a", "var9")], [("x", "var1")]], 9⟩ (.Name "z")
      = .ok (⟨[[("a", "var9")], [("x", "var1")]], 9⟩, .Name "z") :=
  ⟨(c5_name_resolution ⟨[[("a", "var9")], [("x", "var1")]], 9⟩ "x").2
      [[("a", "var9")]] [("x", "var1")] [] "var1" rfl (by decide) (by decide),
   (c5_name_resolution ⟨[[("a", "var9")], [("x", "var1")]], 9⟩ "z").1 (by decide)⟩

/-- C1: in `visit_LocalAssign` every value expression is resolved against
the scopes exactly as they exist before the statement — here both
right-hand `x` uses resolve through the pre-statement stack even though
`x` is also the first target — and only afterwards is each Name target
given its own fresh name (counter order `c+1`, `c+2`, left to right) and
recorded in the innermost scope. -/
theorem c1_localassign_values_before_targets
    (sc : Scope) (rest : List Scope) (c : Nat) (x b y : String)
    (h : lookupScopes (sc :: rest) x = some y) :
    visit ⟨sc :: rest, c⟩ (.LocalAssign [.Name x, .Name b] [.Name x, .Name x])
      = .ok (⟨((b, "var" ++ decStr (c + 2)) :: (x, "var" ++ decStr (c + 1)) :: sc) :: rest,
              c + 2⟩,
          .LocalAssign [.Name ("var" ++ decStr (c + 1)), .Name ("var" ++ decStr (c + 2))]
            [.Name y, .Name y]) := by
  simp [visit, visit_list, visit_targets, generic_visit, new_name, declare, h]

theorem c1_witness :
    visit ⟨[("x", "outer")] :: [], 0⟩ (.LocalAssign [.Name "x", .Name "y"] [.Name "x", .Name "x"])
      = .ok (⟨[("y", "var" ++ decStr 2) :: ("x", "var" ++ decStr 1) :: [("x", "outer")]] , 2⟩,
          .LocalAssign [.Name ("var" ++ decStr 1), .Name ("var" ++ decStr 2)]
            [.Name "outer", .Name "outer"]) :=
  c1_localassign_values_before_targets [("x", "outer")] [] 0 "x" "y" "outer" (by decide)

/-- C4: `visit_LocalFunction` first fresh-names the function's own name
and records it in the enclosing scope (so the counter gives it `c+1`,
before the parameters), then pushes the function scope and declares the
parameters left to right (`c+2`, `c+3`); the recursive use of `f` in the
body resolves to the function's fresh name through the enclosing scope,
the parameter use to the parameter's fresh name, and after the function
scope pops the binding for `f` remains in the enclosing scope. -/
theorem c4_localfunction (sc : Scope) (rest : List Scope) (c : Nat) (f p1 p2 : String)
    (h1 : p1 ≠ p2) (h2 : f ≠ p1) (h3 : f ≠ p2) :
    visit ⟨sc :: rest, c⟩ (.LocalFunction (.Name f) [.Name p1, .Name p2]
        (.Block [.Return [.Call (.Name f) [.Name p1]]]))
      = .ok (⟨((f, "var" ++ decStr (c + 1)) :: sc) :: rest, c + 3⟩,
          .LocalFunction (.Name ("var" ++ decStr (c + 1)))
            [.Name ("var" ++ decStr (c + 2)), .Name ("var" ++ decStr (c + 3))]
            (.Block [.Return [.Call (.Name ("var" ++ decStr (c + 1)))
              [.Name ("var" ++ decStr (c + 2))]]])) := by
  have e1 : (f == p2) = false := beq_eq_false_iff_ne.mpr h3
  have e2 : (f == p1) = false := beq_eq_false_iff_ne.mpr h2
  have e3 : (p1 == p2) = false := beq_eq_false_iff_ne.mpr h1
  simp [visit, visit_list, generic_visit, declare_args, new_name, declare,
    push_scope, pop_scope, lookupScopes, List.lookup, e1, e2, e3]

theorem c4_witness :
    visit ⟨[[]], 0⟩ (.LocalFunction (.Name "add") [.Name "a", .Name "b"]
        (.Block [.Return [.Call (.Name "add") [.Name "a"]]]))
      = .ok (⟨[[("add", "var" ++ decStr 1)]], 3⟩,
          .LocalFunction (.Name ("var" ++ decStr 1))
            [.Name ("var" ++ decStr 2), .Name ("var" ++ decStr 3)]
            (.Block [.Return [.Call (.Name ("var" ++ decStr 1))
              [.Name ("var" ++ decStr 2)]]])) :=
  c4_localfunction [] [] 0 "add" "a" "b" (by decide) (by decide) (by decide)

/-- C2 counterexample: on the spec's own example
`repeat local done = check() until done`, the body declaration of `done`
is renamed to `var1`, but the until-condition is handed to
`generic_visit`, which visits only the *children* of the condition node;
a bare `Name` condition has no node children, so the `done` in the
condition keeps its text `"done"` and is NOT rewritten to the fresh name
`"var1"` the body declaration received, contradicting the claim. -/
theorem c2_counterexample :
    visit initSt (.Repeat (.Block [.LocalAssign [.Name "done"] [.Call (.Name "check") []]])
        (.Name "done"))
      = .ok (⟨[[]], 1⟩,
          .Repeat (.Block [.LocalAssign [.Name "var1"] [.Call (.Name "check") []]])
            (.Name "done")) ∧
    ("done" : String) ≠ "var1" :=
  ⟨by with_unfolding_all rfl, by decide⟩

/-- C2 amended: `visit_Repeat` opens a new scope, visits the body inside
it, and then child-visits the until-condition inside that same scope
before popping it — so identifiers strictly inside the condition resolve
against the body's declarations, but the condition's root node itself is
never dispatched, leaving a bare-identifier condition unchanged.  For
any starting scope stack and counter, the `d` inside the compound
condition resolves to the fresh name declared in the repeat body. -/
theorem c2_repeat_amended (scs : List Scope) (c : Nat) (d op : String) :
    visit ⟨scs, c⟩ (.Repeat (.Block [.LocalAssign [.Name d] [.Nil]])
        (.BinOp op (.Name d) .Nil))
      = .ok (⟨scs, c + 1⟩,
          .Repeat (.Block [.LocalAssign [.Name ("var" ++ decStr (c + 1))] [.Nil]])
            (.BinOp op (.Name ("var" ++ decStr (c + 1))) .Nil)) := by
  simp [visit, generic_visit, visit_list, visit_targets, push_scope, pop_scope,
    new_name, declare, lookupScopes, List.lookup]

/-- C3 counterexample: with `local c = nil` in scope, the chain
`if c then end` leaves the condition text `"c"` unchanged — the
condition node is handed to `generic_visit`, which visits only its
children — even though the enclosing scope maps `c` to `var1`, so the
primary condition is NOT resolved against the enclosing scopes as the
claim states. -/
theorem c3_counterexample :
    visit initSt (.Block [.LocalAssign [.Name "c"] [.Nil],
        .If (.Name "c") (.Block []) []])
      = .ok (⟨[[]], 1⟩,
          .Block [.LocalAssign [.Name "var1"] [.Nil],
            .If (.Name "c") (.Block []) []]) ∧
    ("c" : String) ≠ "var1" :=
  ⟨by with_unfolding_all rfl, by decide⟩

/-- C3 amended: the primary and every elseif condition are child-visited
against the scopes enclosing the whole chain — identifiers nested inside
them resolve against the enclosing scopes, never against a sibling
branch's bindings, though a condition that is itself a bare identifier
is left undispatched and unchanged — and each branch body is visited in
its own fresh scope pushed before and popped after that branch: here
both branch bodies shadow `x` with distinct fresh names, the elseif
condition and the else-body use of `x` still resolve to the enclosing
`y`, and the final scope stack is unchanged. -/
theorem c3_if_amended (scs : List Scope) (c : Nat) (x y op : String)
    (h : lookupScopes scs x = some y) :
    visit ⟨scs, c⟩ (.If (.BinOp op (.Name x) .Nil)
        (.Block [.LocalAssign [.Name x] [.Nil]])
        [.ElseIf (.BinOp op (.Name x) .Nil) (.Block [.LocalAssign [.Name x] [.Nil]]),
         .Block [.Return [.Name x]]])
      = .ok (⟨scs, c + 2⟩,
          .If (.BinOp op (.Name y) .Nil)
            (.Block [.LocalAssign [.Name ("var" ++ decStr (c + 1))] [.Nil]])
            [.ElseIf (.BinOp op (.Name y) .Nil)
              (.Block [.LocalAssign [.Name ("var" ++ decStr (c + 2))] [.Nil]]),
             .Block [.Return [.Name y]]]) := by
  simp [visit, generic_visit, visit_list, visit_targets, visit_orelse, visit_orelse_elem,
    push_scope, pop_scope, new_name, declare, lookupScopes, List.lookup, h]

theorem c3_witness :
    visit ⟨[[("x", "w")]], 0⟩ (.If (.BinOp "==" (.Name "x") .Nil)
        (.Block [.LocalAssign [.Name "x"] [.Nil]])
        [.ElseIf (.BinOp "==" (.Name "x") .Nil) (.Block [.LocalAssign [.Name "x"] [.Nil]]),
         .Block [.Return [.Name "x"]]])
      = .ok (⟨[[("x", "w")]], 2⟩,
          .If (.BinOp "==" (.Name "w") .Nil)
            (.Block [.LocalAssign [.Name ("var" ++ decStr 1)] [.Nil]])
            [.ElseIf (.BinOp "==" (.Name "w") .Nil)
              (.Block [.LocalAssign [.Name ("var" ++ decStr 2)] [.Nil]]),
             .Block [.Return [.Name "w"]]]) :=
  c3_if_amended [[("x", "w")]] 0 "x" "w" "==" (by decide)

/-- C6 counterexample: `Return` is a node kind the renamer defines no
`visit_` method for — an unrecognized kind — yet the traversal of a tree
containing it succeeds (the dispatcher falls back to `generic_visit` and
silently continues); it does not fail with any error, contradicting the
claim that such a tree makes the run abort. -/
theorem c6_counterexample :
    visit initSt (.Block [.Return [.Nil]]) = .ok (⟨[[]], 0⟩, .Block [.Return [.Nil]]) := by
  with_unfolding_all rfl

/-- C6 amended: node kinds without a `visit_` method are traversed by the
generic child-visiting fallback and never abort the run; only a node of
*malformed shape* raises an error that aborts the traversal with no
output — a numeric-for target that is not a Name (`node.target.id`), a
local-function name that is not a Name (`node.name.id`), and an
else/elseif chain element without a `body` attribute all raise an
`AttributeError`, and no `StructuralError` class exists in the code. -/
theorem c6_amended :
    (∀ (st : St) (k : Int) (body : Node),
      visit st (.For (.Number k) .Nil .Nil none body) = .error "AttributeError: id") ∧
    (∀ (st : St) (args : List Node) (body : Node),
      visit st (.LocalFunction .Nil args body) = .error "AttributeError: id") ∧
    (∀ st : St,
      visit st (.If .Nil (.Block []) [.Nil]) = .error "AttributeError: body") := by
  refine ⟨fun st k body => ?_, fun st args body => ?_, fun st => ?_⟩ <;>
    simp [visit, generic_visit, generic_visit_opt, visit_list, visit_orelse,
      visit_orelse_elem, push_scope, pop_scope]

/-- C10: `preprocess_luau`'s third substitution removes a colon followed
by a type-like token in any context, so the ordinary Lua method call
`obj:method()` — which contains no comments and no type annotations — is
rewritten to `obj()`, a different program, before parsing. -/
theorem c10_preprocess_method_call :
    preprocess_luau "obj:method()" = "obj()" ∧ ("obj()" : String) ≠ "obj:method()" :=
  ⟨by with_unfolding_all rfl, by decide⟩

/-- C9 counterexample: a POST with pasted text `"a: b"` whose parse stage
fails renders the empty output and an error banner as the claim states,
but the textarea echoes `"a"` — `preprocess_luau "a: b"` — because `code`
is reassigned to the preprocessed text before parsing; the submitted
input text `"a: b"` is NOT preserved in the response. -/
theorem c9_counterexample :
    index (fun _ => .error "boom") (fun _ => .ok "") .POST none (some "a: b")
      = ⟨"a", "", some (procErrorMsg "boom")⟩ ∧ ("a" : String) ≠ "a: b" :=
  ⟨by with_unfolding_all rfl, by decide⟩

/-- C9 amended: for every POST with non-empty pasted text in which any
stage of the try-block pipeline (parse, rename, pretty-print) fails, the
rendered output code is the empty string, a descriptive error banner
(`"Error processing code: ..."`) is shown, and the textarea carries the
submitted text *as transformed by `preprocess_luau`* — not necessarily
the verbatim submission. -/
theorem c9_index_amended (parse : String → Except String Node)
    (pretty : Node → Except String String) (s m : String)
    (hs : s ≠ "") (hp : pipeline parse pretty (preprocess_luau s) = .error m) :
    index parse pretty .POST none (some s)
      = ⟨preprocess_luau s, "", some (procErrorMsg m)⟩ := by
  simp [index, hs, hp]

theorem c9_witness :
    (("q" : String) ≠ "") ∧
    index (fun _ => .error "x") (fun _ => .ok "") .POST none (some "q")
      = ⟨preprocess_luau "q", "", some (procErrorMsg "x")⟩ :=
  ⟨by decide,
   c9_index_amended (fun _ => .error "x") (fun _ => .ok "") "q" "x" (by decide) rfl⟩

/-! ## Shape equality is reflexive -/

mutual

theorem shapeEq_refl : ∀ n : Node, shapeEq n n = true
  | .Chunk b => by simpa only [shapeEq] using shapeEq_refl b
  | .Block l => by simpa only [shapeEq] using shapeEqList_refl l
  | .Name _ => by simp [shapeEq]
  | .Number _ => by simp [shapeEq]
  | .Str _ => by simp [shapeEq]
  | .Nil => by simp [shapeEq]
  | .TrueExpr => by simp [shapeEq]
  | .FalseExpr => by simp [shapeEq]
  | .Break => by simp [shapeEq]
  | .BinOp op l r => by simp [shapeEq, shapeEq_refl l, shapeEq_refl r]
  | .Call f a => by simp [shapeEq, shapeEq_refl f, shapeEqList_refl a]
  | .Function fn a b => by
    simp [shapeEq, shapeEqOpt_refl fn, shapeEqList_refl a, shapeEq_refl b]
  | .LocalFunction fn a b => by
    simp [shapeEq, shapeEq_refl fn, shapeEqList_refl a, shapeEq_refl b]
  | .LocalAssign t v => by simp [shapeEq, shapeEqList_refl t, shapeEqList_refl v]
  | .For tg a z sp b => by
    simp [shapeEq, shapeEq_refl tg, shapeEq_refl a, shapeEq_refl z,
      shapeEqOpt_refl sp, shapeEq_refl b]
  | .Forin t i b => by
    simp [shapeEq, shapeEqList_refl t, shapeEqList_refl i, shapeEq_refl b]
  | .While t b => by simp [shapeEq, shapeEq_refl t, shapeEq_refl b]
  | .Repeat b t => by simp [shapeEq, shapeEq_refl b, shapeEq_refl t]
  | .If t b o => by simp [shapeEq, shapeEq_refl t, shapeEq_refl b, shapeEqList_refl o]
  | .ElseIf t b => by simp [shapeEq, shapeEq_refl t, shapeEq_refl b]
  | .Do b => by simp [shapeEq, shapeEq_refl b]
  | .Return v => by simpa only [shapeEq] using shapeEqList_refl v
termination_by structural x => x

theorem shapeEqList_refl : ∀ l : List Node, shapeEqList l l = true
  | [] => by simp [shapeEqList]
  | a :: rest => by simp [shapeEqList, shapeEq_refl a, shapeEqList_refl rest]
termination_by structural x => x

theorem shapeEqOpt_refl : ∀ o : Option Node, shapeEqOpt o o = true
  | none => by simp [shapeEqOpt]
  | some a => by simpa only [shapeEqOpt] using shapeEq_refl a
termination_by structural x => x

end

/-- A node whose shape matches one `Name` matches every `Name`: identifier
text is exactly what `shapeEq` ignores. -/
theorem shapeEq_name_right {a : Node} {x y : String}
    (h : shapeEq a (.Name x) = true) : shapeEq a (.Name y) = true := by
  cases a <;> simp [shapeEq] at h ⊢

/-- The parameter-declaration loop rewrites only identifier text. -/
theorem declare_args_shape : ∀ (l : List Node) (st st2 : St) (l2 : List Node),
    declare_args st l = .ok (st2, l2) → shapeEqList l l2 = true := by
  intro l
  induction l with
  | nil =>
    intro st st2 l2 h
    rw [declare_args] at h
    cases h
    simp [shapeEqList]
  | cons t rest ih =>
    intro st st2 l2 h
    cases t
    case Name old =>
      simp only [declare_args, new_name, declare] at h
      split at h
      all_goals try (cases h)
      simp only [shapeEqList, shapeEq, Bool.and_eq_true, true_and]
      exact ih _ _ _ (by assumption)
    all_goals (simp only [declare_args] at h; exact Except.noConfusion h)

set_option maxHeartbeats 2000000 in
mutual

/-- Every successful `visit` preserves node shape (C8 helper). -/
theorem visit_shape : ∀ (n : Node) (st st2 : St) (n2 : Node),
    visit st n = .ok (st2, n2) → shapeEq n n2 = true
  | .Chunk _b => by
    intro st st2 n2 h
    simp only [visit, new_name, declare, push_scope, pop_scope] at h
    iterate 8
      all_goals try (split at h)
      all_goals try (cases h)
    all_goals simp only [shapeEq, shapeEqList, shapeEqOpt, Bool.and_eq_true,
      beq_self_eq_true, true_and, and_true]
    all_goals repeat' apply And.intro
    all_goals
      first
        | rfl
        | exact shapeEq_refl _
        | exact shapeEqList_refl _
        | exact shapeEqOpt_refl _
        | exact declare_args_shape _ _ _ _ (by assumption)
        | exact visit_shape _ _ _ _ (by assumption)
        | exact generic_visit_shape _ _ _ _ (by assumption)
        | exact visit_list_shape _ _ _ _ (by assumption)
        | exact visit_opt_shape _ _ _ _ (by assumption)
        | exact generic_visit_opt_shape _ _ _ _ (by assumption)
        | exact visit_targets_shape _ _ _ _ (by assumption)
        | exact visit_orelse_shape _ _ _ _ (by assumption)
        | exact visit_orelse_elem_shape _ _ _ _ (by assumption)
        | exact shapeEq_name_right (generic_visit_shape _ _ _ _ (by assumption))
  | .Block _l => by
    intro st st2 n2 h
    simp only [visit, new_name, declare, push_scope, pop_scope] at h
    iterate 8
      all_goals try (split at h)
      all_goals try (cases h)
    all_goals simp only [shapeEq, shapeEqList, shapeEqOpt, Bool.and_eq_true,
      beq_self_eq_true, true_and, and_true]
    all_goals repeat' apply And.intro
    all_goals
      first
        | rfl
        | exact shapeEq_refl _
        | exact shapeEqList_refl _
        | exact shapeEqOpt_refl _
        | exact declare_args_shape _ _ _ _ (by assumption)
        | exact visit_shape _ _ _ _ (by assumption)
        | exact generic_visit_shape _ _ _ _ (by assumption)
        | exact visit_list_shape _ _ _ _ (by assumption)
        | exact visit_opt_shape _ _ _ _ (by assumption)
        | exact generic_visit_opt_shape _ _ _ _ (by assumption)
        | exact visit_targets_shape _ _ _ _ (by assumption)
        | exact visit_orelse_shape _ _ _ _ (by assumption)
        | exact visit_orelse_elem_shape _ _ _ _ (by assumption)
        | exact shapeEq_name_right (generic_visit_shape _ _ _ _ (by assumption))
  | .Name _i => by
    intro st st2 n2 h
    simp only [visit, new_name, declare, push_scope, pop_scope] at h
    iterate 8
      all_goals try (split at h)
      all_goals try (cases h)
    all_goals simp only [shapeEq, shapeEqList, shapeEqOpt, Bool.and_eq_true,
      beq_self_eq_true, true_and, and_true]
    all_goals repeat' apply And.intro
    all_goals
      first
        | rfl
        | exact shapeEq_refl _
        | exact shapeEqList_refl _
        | exact shapeEqOpt_refl _
        | exact declare_args_shape _ _ _ _ (by assumption)
        | exact visit_shape _ _ _ _ (by assumption)
        | exact generic_visit_shape _ _ _ _ (by assumption)
        | exact visit_list_shape _ _ _ _ (by assumption)
        | exact visit_opt_shape _ _ _ _ (by assumption)
        | exact generic_visit_opt_shape _ _ _ _ (by assumption)
        | exact visit_targets_shape _ _ _ _ (by assumption)
        | exact visit_orelse_shape _ _ _ _ (by assumption)
        | exact visit_orelse_elem_shape _ _ _ _ (by assumption)
        | exact shapeEq_name_right (generic_visit_shape _ _ _ _ (by assumption))
  | .Number _v => by
    intro st st2 n2 h
    simp only [visit, new_name, declare, push_scope, pop_scope] at h
    iterate 8
      all_goals try (split at h)
      all_goals try (cases h)
    all_goals simp only [shapeEq, shapeEqList, shapeEqOpt, Bool.and_eq_true,
      beq_self_eq_true, true_and, and_true]
    all_goals repeat' apply And.intro
    all_goals
      first
        | rfl
        | exact shapeEq_refl _
        | exact shapeEqList_refl _
        | exact shapeEqOpt_refl _
        | exact declare_args_shape _ _ _ _ (by assumption)
        | exact visit_shape _ _ _ _ (by assumption)
        | exact generic_visit_shape _ _ _ _ (by assumption)
        | exact visit_list_shape _ _ _ _ (by assumption)
        | exact visit_opt_shape _ _ _ _ (by assumption)
        | exact generic_visit_opt_shape _ _ _ _ (by assumption)
        | exact visit_targets_shape _ _ _ _ (by assumption)
        | exact visit_orelse_shape _ _ _ _ (by assumption)
        | exact visit_orelse_elem_shape _ _ _ _ (by assumption)
        | exact shapeEq_name_right (generic_visit_shape _ _ _ _ (by assumption))
  | .Str _s => by
    intro st st2 n2 h
    simp only [visit, new_name, declare, push_scope, pop_scope] at h
    iterate 8
      all_goals try (split at h)
      all_goals try (cases h)
    all_goals simp only [shapeEq, shapeEqList, shapeEqOpt, Bool.and_eq_true,
      beq_self_eq_true, true_and, and_true]
    all_goals repeat' apply And.intro
    all_goals
      first
        | rfl
        | exact shapeEq_refl _
        | exact shapeEqList_refl _
        | exact shapeEqOpt_refl _
        | exact declare_args_shape _ _ _ _ (by assumption)
        | exact visit_shape _ _ _ _ (by assumption)
        | exact generic_visit_shape _ _ _ _ (by assumption)
        | exact visit_list_shape _ _ _ _ (by assumption)
        | exact visit_opt_shape _ _ _ _ (by assumption)
        | exact generic_visit_opt_shape _ _ _ _ (by assumption)
        | exact visit_targets_shape _ _ _ _ (by assumption)
        | exact visit_orelse_shape _ _ _ _ (by assumption)
        | exact visit_orelse_elem_shape _ _ _ _ (by assumption)
        | exact shapeEq_name_right (generic_visit_shape _ _ _ _ (by assumption))
  | .Nil => by
    intro st st2 n2 h
    simp only [visit, new_name, declare, push_scope, pop_scope] at h
    iterate 8
      all_goals try (split at h)
      all_goals try (cases h)
    all_goals simp only [shapeEq, shapeEqList, shapeEqOpt, Bool.and_eq_true,
      beq_self_eq_true, true_and, and_true]
    all_goals repeat' apply And.intro
    all_goals
      first
        | rfl
        | exact shapeEq_refl _
        | exact shapeEqList_refl _
        | exact shapeEqOpt_refl _
        | exact declare_args_shape _ _ _ _ (by assumption)
        | exact visit_shape _ _ _ _ (by assumption)
        | exact generic_visit_shape _ _ _ _ (by assumption)
        | exact visit_list_shape _ _ _ _ (by assumption)
        | exact visit_opt_shape _ _ _ _ (by assumption)
        | exact generic_visit_opt_shape _ _ _ _ (by assumption)
        | exact visit_targets_shape _ _ _ _ (by assumption)
        | exact visit_orelse_shape _ _ _ _ (by assumption)
        | exact visit_orelse_elem_shape _ _ _ _ (by assumption)
        | exact shapeEq_name_right (generic_visit_shape _ _ _ _ (by assumption))
  | .TrueExpr => by
    intro st st2 n2 h
    simp only [visit, new_name, declare, push_scope, pop_scope] at h
    iterate 8
      all_goals try (split at h)
      all_goals try (cases h)
    all_goals simp only [shapeEq, shapeEqList, shapeEqOpt, Bool.and_eq_true,
      beq_self_eq_true, true_and, and_true]
    all_goals repeat' apply And.intro
    all_goals
      first
        | rfl
        | exact shapeEq_refl _
        | exact shapeEqList_refl _
        | exact shapeEqOpt_refl _
        | exact declare_args_shape _ _ _ _ (by assumption)
        | exact visit_shape _ _ _ _ (by assumption)
        | exact generic_visit_shape _ _ _ _ (by assumption)
        | exact visit_list_shape _ _ _ _ (by assumption)
        | exact visit_opt_shape _ _ _ _ (by assumption)
        | exact generic_visit_opt_shape _ _ _ _ (by assumption)
        | exact visit_targets_shape _ _ _ _ (by assumption)
        | exact visit_orelse_shape _ _ _ _ (by assumption)
        | exact visit_orelse_elem_shape _ _ _ _ (by assumption)
        | exact shapeEq_name_right (generic_visit_shape _ _ _ _ (by assumption))
  | .FalseExpr => by
    intro st st2 n2 h
    simp only [visit, new_name, declare, push_scope, pop_scope] at h
    iterate 8
      all_goals try (split at h)
      all_goals try (cases h)
    all_goals simp only [shapeEq, shapeEqList, shapeEqOpt, Bool.and_eq_true,
      beq_self_eq_true, true_and, and_true]
    all_goals repeat' apply And.intro
    all_goals
      first
        | rfl
        | exact shapeEq_refl _
        | exact shapeEqList_refl _
        | exact shapeEqOpt_refl _
        | exact declare_args_shape _ _ _ _ (by assumption)
        | exact visit_shape _ _ _ _ (by assumption)
        | exact generic_visit_shape _ _ _ _ (by assumption)
        | exact visit_list_shape _ _ _ _ (by assumption)
        | exact visit_opt_shape _ _ _ _ (by assumption)
        | exact generic_visit_opt_shape _ _ _ _ (by assumption)
        | exact visit_targets_shape _ _ _ _ (by assumption)
        | exact visit_orelse_shape _ _ _ _ (by assumption)
        | exact visit_orelse_elem_shape _ _ _ _ (by assumption)
        | exact shapeEq_name_right (generic_visit_shape _ _ _ _ (by assumption))
  | .Break => by
    intro st st2 n2 h
    simp only [visit, new_name, declare, push_scope, pop_scope] at h
    iterate 8
      all_goals try (split at h)
      all_goals try (cases h)
    all_goals simp only [shapeEq, shapeEqList, shapeEqOpt, Bool.and_eq_true,
      beq_self_eq_true, true_and, and_true]
    all_goals repeat' apply And.intro
    all_goals
      first
        | rfl
        | exact shapeEq_refl _
        | exact shapeEqList_refl _
        | exact shapeEqOpt_refl _
        | exact declare_args_shape _ _ _ _ (by assumption)
        | exact visit_shape _ _ _ _ (by assumption)
        | exact generic_visit_shape _ _ _ _ (by assumption)
        | exact visit_list_shape _ _ _ _ (by assumption)
        | exact visit_opt_shape _ _ _ _ (by assumption)
        | exact generic_visit_opt_shape _ _ _ _ (by assumption)
        | exact visit_targets_shape _ _ _ _ (by assumption)
        | exact visit_orelse_shape _ _ _ _ (by assumption)
        | exact visit_orelse_elem_shape _ _ _ _ (by assumption)
        | exact shapeEq_name_right (generic_visit_shape _ _ _ _ (by assumption))
  | .BinOp _o _l _r => by
    intro st st2 n2 h
    simp only [visit, new_name, declare, push_scope, pop_scope] at h
    iterate 8
      all_goals try (split at h)
      all_goals try (cases h)
    all_goals simp only [shapeEq, shapeEqList, shapeEqOpt, Bool.and_eq_true,
      beq_self_eq_true, true_and, and_true]
    all_goals repeat' apply And.intro
    all_goals
      first
        | rfl
        | exact shapeEq_refl _
        | exact shapeEqList_refl _
        | exact shapeEqOpt_refl _
        | exact declare_args_shape _ _ _ _ (by assumption)
        | exact visit_shape _ _ _ _ (by assumption)
        | exact generic_visit_shape _ _ _ _ (by assumption)
        | exact visit_list_shape _ _ _ _ (by assumption)
        | exact visit_opt_shape _ _ _ _ (by assumption)
        | exact generic_visit_opt_shape _ _ _ _ (by assumption)
        | exact visit_targets_shape _ _ _ _ (by assumption)
        | exact visit_orelse_shape _ _ _ _ (by assumption)
        | exact visit_orelse_elem_shape _ _ _ _ (by assumption)
        | exact shapeEq_name_right (generic_visit_shape _ _ _ _ (by assumption))
  | .Call _f _a => by
    intro st st2 n2 h
    simp only [visit, new_name, declare, push_scope, pop_scope] at h
    iterate 8
      all_goals try (split at h)
      all_goals try (cases h)
    all_goals simp only [shapeEq, shapeEqList, shapeEqOpt, Bool.and_eq_true,
      beq_self_eq_true, true_and, and_true]
    all_goals repeat' apply And.intro
    all_goals
      first
        | rfl
        | exact shapeEq_refl _
        | exact shapeEqList_refl _
        | exact shapeEqOpt_refl _
        | exact declare_args_shape _ _ _ _ (by assumption)
        | exact visit_shape _ _ _ _ (by assumption)
        | exact generic_visit_shape _ _ _ _ (by assumption)
        | exact visit_list_shape _ _ _ _ (by assumption)
        | exact visit_opt_shape _ _ _ _ (by assumption)
        | exact generic_visit_opt_shape _ _ _ _ (by assumption)
        | exact visit_targets_shape _ _ _ _ (by assumption)
        | exact visit_orelse_shape _ _ _ _ (by assumption)
        | exact visit_orelse_elem_shape _ _ _ _ (by assumption)
        | exact shapeEq_name_right (generic_visit_shape _ _ _ _ (by assumption))
  | .Function (some _nm) _a _b => by
    intro st st2 n2 h
    simp only [visit, new_name, declare, push_scope, pop_scope] at h
    cases hv : visit st _nm with
    | error e =>
      rw [hv] at h
      exact Except.noConfusion h
    | ok p =>
      obtain ⟨st1, nm1⟩ := p
      rw [hv] at h
      dsimp only at h
      iterate 8
        all_goals try (split at h)
        all_goals try (cases h)
      all_goals simp only [shapeEq, shapeEqList, shapeEqOpt, Bool.and_eq_true,
        beq_self_eq_true, true_and, and_true]
      all_goals repeat' apply And.intro
      all_goals
        first
          | rfl
          | exact shapeEq_refl _
          | exact shapeEqList_refl _
          | exact shapeEqOpt_refl _
          | exact declare_args_shape _ _ _ _ (by assumption)
          | exact visit_shape _ _ _ _ (by assumption)
          | exact generic_visit_shape _ _ _ _ (by assumption)
          | exact visit_list_shape _ _ _ _ (by assumption)
          | exact visit_opt_shape _ _ _ _ (by assumption)
          | exact generic_visit_opt_shape _ _ _ _ (by assumption)
          | exact visit_targets_shape _ _ _ _ (by assumption)
          | exact visit_orelse_shape _ _ _ _ (by assumption)
          | exact visit_orelse_elem_shape _ _ _ _ (by assumption)
          | exact shapeEq_name_right (generic_visit_shape _ _ _ _ (by assumption))
  | .Function none _a _b => by
    intro st st2 n2 h
    simp only [visit, new_name, declare, push_scope, pop_scope] at h
    iterate 8
      all_goals try (split at h)
      all_goals try (cases h)
    all_goals simp only [shapeEq, shapeEqList, shapeEqOpt, Bool.and_eq_true,
      beq_self_eq_true, true_and, and_true]
    all_goals repeat' apply And.intro
    all_goals
      first
        | rfl
        | exact shapeEq_refl _
        | exact shapeEqList_refl _
        | exact shapeEqOpt_refl _
        | exact declare_args_shape _ _ _ _ (by assumption)
        | exact visit_shape _ _ _ _ (by assumption)
        | exact generic_visit_shape _ _ _ _ (by assumption)
        | exact visit_list_shape _ _ _ _ (by assumption)
        | exact visit_opt_shape _ _ _ _ (by assumption)
        | exact generic_visit_opt_shape _ _ _ _ (by assumption)
        | exact visit_targets_shape _ _ _ _ (by assumption)
        | exact visit_orelse_shape _ _ _ _ (by assumption)
        | exact visit_orelse_elem_shape _ _ _ _ (by assumption)
        | exact shapeEq_name_right (generic_visit_shape _ _ _ _ (by assumption))
  | .LocalFunction _fn _a _b => by
    intro st st2 n2 h
    simp only [visit, new_name, declare, push_scope, pop_scope] at h
    iterate 8
      all_goals try (split at h)
      all_goals try (cases h)
    all_goals simp only [shapeEq, shapeEqList, shapeEqOpt, Bool.and_eq_true,
      beq_self_eq_true, true_and, and_true]
    all_goals repeat' apply And.intro
    all_goals
      first
        | rfl
        | exact shapeEq_refl _
        | exact shapeEqList_refl _
        | exact shapeEqOpt_refl _
        | exact declare_args_shape _ _ _ _ (by assumption)
        | exact visit_shape _ _ _ _ (by assumption)
        | exact generic_visit_shape _ _ _ _ (by assumption)
        | exact visit_list_shape _ _ _ _ (by assumption)
        | exact visit_opt_shape _ _ _ _ (by assumption)
        | exact generic_visit_opt_shape _ _ _ _ (by assumption)
        | exact visit_targets_shape _ _ _ _ (by assumption)
        | exact visit_orelse_shape _ _ _ _ (by assumption)
        | exact visit_orelse_elem_shape _ _ _ _ (by assumption)
        | exact shapeEq_name_right (generic_visit_shape _ _ _ _ (by assumption))
  | .LocalAssign _t _v => by
    intro st st2 n2 h
    simp only [visit, new_name, declare, push_scope, pop_scope] at h
    iterate 8
      all_goals try (split at h)
      all_goals try (cases h)
    all_goals simp only [shapeEq, shapeEqList, shapeEqOpt, Bool.and_eq_true,
      beq_self_eq_true, true_and, and_true]
    all_goals repeat' apply And.intro
    all_goals
      first
        | rfl
        | exact shapeEq_refl _
        | exact shapeEqList_refl _
        | exact shapeEqOpt_refl _
        | exact declare_args_shape _ _ _ _ (by assumption)
        | exact visit_shape _ _ _ _ (by assumption)
        | exact generic_visit_shape _ _ _ _ (by assumption)
        | exact visit_list_shape _ _ _ _ (by assumption)
        | exact visit_opt_shape _ _ _ _ (by assumption)
        | exact generic_visit_opt_shape _ _ _ _ (by assumption)
        | exact visit_targets_shape _ _ _ _ (by assumption)
        | exact visit_orelse_shape _ _ _ _ (by assumption)
        | exact visit_orelse_elem_shape _ _ _ _ (by assumption)
        | exact shapeEq_name_right (generic_visit_shape _ _ _ _ (by assumption))
  | .For _tg _a _z _sp _b => by
    intro st st2 n2 h
    simp only [visit, new_name, declare, push_scope, pop_scope] at h
    iterate 8
      all_goals try (split at h)
      all_goals try (cases h)
    all_goals simp only [shapeEq, shapeEqList, shapeEqOpt, Bool.and_eq_true,
      beq_self_eq_true, true_and, and_true]
    all_goals repeat' apply And.intro
    all_goals
      first
        | rfl
        | exact shapeEq_refl _
        | exact shapeEqList_refl _
        | exact shapeEqOpt_refl _
        | exact declare_args_shape _ _ _ _ (by assumption)
        | exact visit_shape _ _ _ _ (by assumption)
        | exact generic_visit_shape _ _ _ _ (by assumption)
        | exact visit_list_shape _ _ _ _ (by assumption)
        | exact visit_opt_shape _ _ _ _ (by assumption)
        | exact generic_visit_opt_shape _ _ _ _ (by assumption)
        | exact visit_targets_shape _ _ _ _ (by assumption)
        | exact visit_orelse_shape _ _ _ _ (by assumption)
        | exact visit_orelse_elem_shape _ _ _ _ (by assumption)
        | exact shapeEq_name_right (generic_visit_shape _ _ _ _ (by assumption))
  | .Forin _t _i _b => by
    intro st st2 n2 h
    simp only [visit, new_name, declare, push_scope, pop_scope] at h
    iterate 8
      all_goals try (split at h)
      all_goals try (cases h)
    all_goals simp only [shapeEq, shapeEqList, shapeEqOpt, Bool.and_eq_true,
      beq_self_eq_true, true_and, and_true]
    all_goals repeat' apply And.intro
    all_goals
      first
        | rfl
        | exact shapeEq_refl _
        | exact shapeEqList_refl _
        | exact shapeEqOpt_refl _
        | exact declare_args_shape _ _ _ _ (by assumption)
        | exact visit_shape _ _ _ _ (by assumption)
        | exact generic_visit_shape _ _ _ _ (by assumption)
        | exact visit_list_shape _ _ _ _ (by assumption)
        | exact visit_opt_shape _ _ _ _ (by assumption)
        | exact generic_visit_opt_shape _ _ _ _ (by assumption)
        | exact visit_targets_shape _ _ _ _ (by assumption)
        | exact visit_orelse_shape _ _ _ _ (by assumption)
        | exact visit_orelse_elem_shape _ _ _ _ (by assumption)
        | exact shapeEq_name_right (generic_visit_shape _ _ _ _ (by assumption))
  | .While _t _b => by
    intro st st2 n2 h
    simp only [visit, new_name, declare, push_scope, pop_scope] at h
    iterate 8
      all_goals try (split at h)
      all_goals try (cases h)
    all_goals simp only [shapeEq, shapeEqList, shapeEqOpt, Bool.and_eq_true,
      beq_self_eq_true, true_and, and_true]
    all_goals repeat' apply And.intro
    all_goals
      first
        | rfl
        | exact shapeEq_refl _
        | exact shapeEqList_refl _
        | exact shapeEqOpt_refl _
        | exact declare_args_shape _ _ _ _ (by assumption)
        | exact visit_shape _ _ _ _ (by assumption)
        | exact generic_visit_shape _ _ _ _ (by assumption)
        | exact visit_list_shape _ _ _ _ (by assumption)
        | exact visit_opt_shape _ _ _ _ (by assumption)
        | exact generic_visit_opt_shape _ _ _ _ (by assumption)
        | exact visit_targets_shape _ _ _ _ (by assumption)
        | exact visit_orelse_shape _ _ _ _ (by assumption)
        | exact visit_orelse_elem_shape _ _ _ _ (by assumption)
        | exact shapeEq_name_right (generic_visit_shape _ _ _ _ (by assumption))
  | .Repeat _b _t => by
    intro st st2 n2 h
    simp only [visit, new_name, declare, push_scope, pop_scope] at h
    iterate 8
      all_goals try (split at h)
      all_goals try (cases h)
    all_goals simp only [shapeEq, shapeEqList, shapeEqOpt, Bool.and_eq_true,
      beq_self_eq_true, true_and, and_true]
    all_goals repeat' apply And.intro
    all_goals
      first
        | rfl
        | exact shapeEq_refl _
        | exact shapeEqList_refl _
        | exact shapeEqOpt_refl _
        | exact declare_args_shape _ _ _ _ (by assumption)
        | exact visit_shape _ _ _ _ (by assumption)
        | exact generic_visit_shape _ _ _ _ (by assumption)
        | exact visit_list_shape _ _ _ _ (by assumption)
        | exact visit_opt_shape _ _ _ _ (by assumption)
        | exact generic_visit_opt_shape _ _ _ _ (by assumption)
        | exact visit_targets_shape _ _ _ _ (by assumption)
        | exact visit_orelse_shape _ _ _ _ (by assumption)
        | exact visit_orelse_elem_shape _ _ _ _ (by assumption)
        | exact shapeEq_name_right (generic_visit_shape _ _ _ _ (by assumption))
  | .If _t _b _o => by
    intro st st2 n2 h
    simp only [visit, new_name, declare, push_scope, pop_scope] at h
    iterate 8
      all_goals try (split at h)
      all_goals try (cases h)
    all_goals simp only [shapeEq, shapeEqList, shapeEqOpt, Bool.and_eq_true,
      beq_self_eq_true, true_and, and_true]
    all_goals repeat' apply And.intro
    all_goals
      first
        | rfl
        | exact shapeEq_refl _
        | exact shapeEqList_refl _
        | exact shapeEqOpt_refl _
        | exact declare_args_shape _ _ _ _ (by assumption)
        | exact visit_shape _ _ _ _ (by assumption)
        | exact generic_visit_shape _ _ _ _ (by assumption)
        | exact visit_list_shape _ _ _ _ (by assumption)
        | exact visit_opt_shape _ _ _ _ (by assumption)
        | exact generic_visit_opt_shape _ _ _ _ (by assumption)
        | exact visit_targets_shape _ _ _ _ (by assumption)
        | exact visit_orelse_shape _ _ _ _ (by assumption)
        | exact visit_orelse_elem_shape _ _ _ _ (by assumption)
        | exact shapeEq_name_right (generic_visit_shape _ _ _ _ (by assumption))
  | .ElseIf _t _b => by
    intro st st2 n2 h
    simp only [visit, new_name, declare, push_scope, pop_scope] at h
    iterate 8
      all_goals try (split at h)
      all_goals try (cases h)
    all_goals simp only [shapeEq, shapeEqList, shapeEqOpt, Bool.and_eq_true,
      beq_self_eq_true, true_and, and_true]
    all_goals repeat' apply And.intro
    all_goals
      first
        | rfl
        | exact shapeEq_refl _
        | exact shapeEqList_refl _
        | exact shapeEqOpt_refl _
        | exact declare_args_shape _ _ _ _ (by assumption)
        | exact visit_shape _ _ _ _ (by assumption)
        | exact generic_visit_shape _ _ _ _ (by assumption)
        | exact visit_list_shape _ _ _ _ (by assumption)
        | exact visit_opt_shape _ _ _ _ (by assumption)
        | exact generic_visit_opt_shape _ _ _ _ (by assumption)
        | exact visit_targets_shape _ _ _ _ (by assumption)
        | exact visit_orelse_shape _ _ _ _ (by assumption)
        | exact visit_orelse_elem_shape _ _ _ _ (by assumption)
        | exact shapeEq_name_right (generic_visit_shape _ _ _ _ (by assumption))
  | .Do _b => by
    intro st st2 n2 h
    simp only [visit, new_name, declare, push_scope, pop_scope] at h
    iterate 8
      all_goals try (split at h)
      all_goals try (cases h)
    all_goals simp only [shapeEq, shapeEqList, shapeEqOpt, Bool.and_eq_true,
      beq_self_eq_true, true_and, and_true]
    all_goals repeat' apply And.intro
    all_goals
      first
        | rfl
        | exact shapeEq_refl _
        | exact shapeEqList_refl _
        | exact shapeEqOpt_refl _
        | exact declare_args_shape _ _ _ _ (by assumption)
        | exact visit_shape _ _ _ _ (by assumption)
        | exact generic_visit_shape _ _ _ _ (by assumption)
        | exact visit_list_shape _ _ _ _ (by assumption)
        | exact visit_opt_shape _ _ _ _ (by assumption)
        | exact generic_visit_opt_shape _ _ _ _ (by assumption)
        | exact visit_targets_shape _ _ _ _ (by assumption)
        | exact visit_orelse_shape _ _ _ _ (by assumption)
        | exact visit_orelse_elem_shape _ _ _ _ (by assumption)
        | exact shapeEq_name_right (generic_visit_shape _ _ _ _ (by assumption))
  | .Return _v => by
    intro st st2 n2 h
    simp only [visit, new_name, declare, push_scope, pop_scope] at h
    iterate 8
      all_goals try (split at h)
      all_goals try (cases h)
    all_goals simp only [shapeEq, shapeEqList, shapeEqOpt, Bool.and_eq_true,
      beq_self_eq_true, true_and, and_true]
    all_goals repeat' apply And.intro
    all_goals
      first
        | rfl
        | exact shapeEq_refl _
        | exact shapeEqList_refl _
        | exact shapeEqOpt_refl _
        | exact declare_args_shape _ _ _ _ (by assumption)
        | exact visit_shape _ _ _ _ (by assumption)
        | exact generic_visit_shape _ _ _ _ (by assumption)
        | exact visit_list_shape _ _ _ _ (by assumption)
        | exact visit_opt_shape _ _ _ _ (by assumption)
        | exact generic_visit_opt_shape _ _ _ _ (by assumption)
        | exact visit_targets_shape _ _ _ _ (by assumption)
        | exact visit_orelse_shape _ _ _ _ (by assumption)
        | exact visit_orelse_elem_shape _ _ _ _ (by assumption)
        | exact shapeEq_name_right (generic_visit_shape _ _ _ _ (by assumption))
termination_by structural x => x

/-- Every successful `generic_visit` preserves node shape. -/
theorem generic_visit_shape : ∀ (n : Node) (st st2 : St) (n2 : Node),
    generic_visit st n = .ok (st2, n2) → shapeEq n n2 = true
  | .Chunk _b => by
    intro st st2 n2 h
    simp only [generic_visit, new_name, declare, push_scope, pop_scope] at h
    iterate 8
      all_goals try (split at h)
      all_goals try (cases h)
    all_goals simp only [shapeEq, shapeEqList, shapeEqOpt, Bool.and_eq_true,
      beq_self_eq_true, true_and, and_true]
    all_goals repeat' apply And.intro
    all_goals
      first
        | rfl
        | exact shapeEq_refl _
        | exact shapeEqList_refl _
        | exact shapeEqOpt_refl _
        | exact declare_args_shape _ _ _ _ (by assumption)
        | exact visit_shape _ _ _ _ (by assumption)
        | exact generic_visit_shape _ _ _ _ (by assumption)
        | exact visit_list_shape _ _ _ _ (by assumption)
        | exact visit_opt_shape _ _ _ _ (by assumption)
        | exact generic_visit_opt_shape _ _ _ _ (by assumption)
        | exact visit_targets_shape _ _ _ _ (by assumption)
        | exact visit_orelse_shape _ _ _ _ (by assumption)
        | exact visit_orelse_elem_shape _ _ _ _ (by assumption)
        | exact shapeEq_name_right (generic_visit_shape _ _ _ _ (by assumption))
  | .Block _l => by
    intro st st2 n2 h
    simp only [generic_visit, new_name, declare, push_scope, pop_scope] at h
    iterate 8
      all_goals try (split at h)
      all_goals try (cases h)
    all_goals simp only [shapeEq, shapeEqList, shapeEqOpt, Bool.and_eq_true,
      beq_self_eq_true, true_and, and_true]
    all_goals repeat' apply And.intro
    all_goals
      first
        | rfl
        | exact shapeEq_refl _
        | exact shapeEqList_refl _
        | exact shapeEqOpt_refl _
        | exact declare_args_shape _ _ _ _ (by assumption)
        | exact visit_shape _ _ _ _ (by assumption)
        | exact generic_visit_shape _ _ _ _ (by assumption)
        | exact visit_list_shape _ _ _ _ (by assumption)
        | exact visit_opt_shape _ _ _ _ (by assumption)
        | exact generic_visit_opt_shape _ _ _ _ (by assumption)
        | exact visit_targets_shape _ _ _ _ (by assumption)
        | exact visit_orelse_shape _ _ _ _ (by assumption)
        | exact visit_orelse_elem_shape _ _ _ _ (by assumption)
        | exact shapeEq_name_right (generic_visit_shape _ _ _ _ (by assumption))
  | .Name _i => by
    intro st st2 n2 h
    simp only [generic_visit, new_name, declare, push_scope, pop_scope] at h
    iterate 8
      all_goals try (split at h)
      all_goals try (cases h)
    all_goals simp only [shapeEq, shapeEqList, shapeEqOpt, Bool.and_eq_true,
      beq_self_eq_true, true_and, and_true]
    all_goals repeat' apply And.intro
    all_goals
      first
        | rfl
        | exact shapeEq_refl _
        | exact shapeEqList_refl _
        | exact shapeEqOpt_refl _
        | exact declare_args_shape _ _ _ _ (by assumption)
        | exact visit_shape _ _ _ _ (by assumption)
        | exact generic_visit_shape _ _ _ _ (by assumption)
        | exact visit_list_shape _ _ _ _ (by assumption)
        | exact visit_opt_shape _ _ _ _ (by assumption)
        | exact generic_visit_opt_shape _ _ _ _ (by assumption)
        | exact visit_targets_shape _ _ _ _ (by assumption)
        | exact visit_orelse_shape _ _ _ _ (by assumption)
        | exact visit_orelse_elem_shape _ _ _ _ (by assumption)
        | exact shapeEq_name_right (generic_visit_shape _ _ _ _ (by assumption))
  | .Number _v => by
    intro st st2 n2 h
    simp only [generic_visit, new_name, declare, push_scope, pop_scope] at h
    iterate 8
      all_goals try (split at h)
      all_goals try (cases h)
    all_goals simp only [shapeEq, shapeEqList, shapeEqOpt, Bool.and_eq_true,
      beq_self_eq_true, true_and, and_true]
    all_goals repeat' apply And.intro
    all_goals
      first
        | rfl
        | exact shapeEq_refl _
        | exact shapeEqList_refl _
        | exact shapeEqOpt_refl _
        | exact declare_args_shape _ _ _ _ (by assumption)
        | exact visit_shape _ _ _ _ (by assumption)
        | exact generic_visit_shape _ _ _ _ (by assumption)
        | exact visit_list_shape _ _ _ _ (by assumption)
        | exact visit_opt_shape _ _ _ _ (by assumption)
        | exact generic_visit_opt_shape _ _ _ _ (by assumption)
        | exact visit_targets_shape _ _ _ _ (by assumption)
        | exact visit_orelse_shape _ _ _ _ (by assumption)
        | exact visit_orelse_elem_shape _ _ _ _ (by assumption)
        | exact shapeEq_name_right (generic_visit_shape _ _ _ _ (by assumption))
  | .Str _s => by
    intro st st2 n2 h
    simp only [generic_visit, new_name, declare, push_scope, pop_scope] at h
    iterate 8
      all_goals try (split at h)
      all_goals try (cases h)
    all_goals simp only [shapeEq, shapeEqList, shapeEqOpt, Bool.and_eq_true,
      beq_self_eq_true, true_and, and_true]
    all_goals repeat' apply And.intro
    all_goals
      first
        | rfl
        | exact shapeEq_refl _
        | exact shapeEqList_refl _
        | exact shapeEqOpt_refl _
        | exact declare_args_shape _ _ _ _ (by assumption)
        | exact visit_shape _ _ _ _ (by assumption)
        | exact generic_visit_shape _ _ _ _ (by assumption)
        | exact visit_list_shape _ _ _ _ (by assumption)
        | exact visit_opt_shape _ _ _ _ (by assumption)
        | exact generic_visit_opt_shape _ _ _ _ (by assumption)
        | exact visit_targets_shape _ _ _ _ (by assumption)
        | exact visit_orelse_shape _ _ _ _ (by assumption)
        | exact visit_orelse_elem_shape _ _ _ _ (by assumption)
        | exact shapeEq_name_right (generic_visit_shape _ _ _ _ (by assumption))
  | .Nil => by
    intro st st2 n2 h
    simp only [generic_visit, new_name, declare, push_scope, pop_scope] at h
    iterate 8
      all_goals try (split at h)
      all_goals try (cases h)
    all_goals simp only [shapeEq, shapeEqList, shapeEqOpt, Bool.and_eq_true,
      beq_self_eq_true, true_and, and_true]
    all_goals repeat' apply And.intro
    all_goals
      first
        | rfl
        | exact shapeEq_refl _
        | exact shapeEqList_refl _
        | exact shapeEqOpt_refl _
        | exact declare_args_shape _ _ _ _ (by assumption)
        | exact visit_shape _ _ _ _ (by assumption)
        | exact generic_visit_shape _ _ _ _ (by assumption)
        | exact visit_list_shape _ _ _ _ (by assumption)
        | exact visit_opt_shape _ _ _ _ (by assumption)
        | exact generic_visit_opt_shape _ _ _ _ (by assumption)
        | exact visit_targets_shape _ _ _ _ (by assumption)
        | exact visit_orelse_shape _ _ _ _ (by assumption)
        | exact visit_orelse_elem_shape _ _ _ _ (by assumption)
        | exact shapeEq_name_right (generic_visit_shape _ _ _ _ (by assumption))
  | .TrueExpr => by
    intro st st2 n2 h
    simp only [generic_visit, new_name, declare, push_scope, pop_scope] at h
    iterate 8
      all_goals try (split at h)
      all_goals try (cases h)
    all_goals simp only [shapeEq, shapeEqList, shapeEqOpt, Bool.and_eq_true,
      beq_self_eq_true, true_and, and_true]
    all_goals repeat' apply And.intro
    all_goals
      first
        | rfl
        | exact shapeEq_refl _
        | exact shapeEqList_refl _
        | exact shapeEqOpt_refl _
        | exact declare_args_shape _ _ _ _ (by assumption)
        | exact visit_shape _ _ _ _ (by assumption)
        | exact generic_visit_shape _ _ _ _ (by assumption)
        | exact visit_list_shape _ _ _ _ (by assumption)
        | exact visit_opt_shape _ _ _ _ (by assumption)
        | exact generic_visit_opt_shape _ _ _ _ (by assumption)
        | exact visit_targets_shape _ _ _ _ (by assumption)
        | exact visit_orelse_shape _ _ _ _ (by assumption)
        | exact visit_orelse_elem_shape _ _ _ _ (by assumption)
        | exact shapeEq_name_right (generic_visit_shape _ _ _ _ (by assumption))
  | .FalseExpr => by
    intro st st2 n2 h
    simp only [generic_visit, new_name, declare, push_scope, pop_scope] at h
    iterate 8
      all_goals try (split at h)
      all_goals try (cases h)
    all_goals simp only [shapeEq, shapeEqList, shapeEqOpt, Bool.and_eq_true,
      beq_self_eq_true, true_and, and_true]
    all_goals repeat' apply And.intro
    all_goals
      first
        | rfl
        | exact shapeEq_refl _
        | exact shapeEqList_refl _
        | exact shapeEqOpt_refl _
        | exact declare_args_shape _ _ _ _ (by assumption)
        | exact visit_shape _ _ _ _ (by assumption)
        | exact generic_visit_shape _ _ _ _ (by assumption)
        | exact visit_list_shape _ _ _ _ (by assumption)
        | exact visit_opt_shape _ _ _ _ (by assumption)
        | exact generic_visit_opt_shape _ _ _ _ (by assumption)
        | exact visit_targets_shape _ _ _ _ (by assumption)
        | exact visit_orelse_shape _ _ _ _ (by assumption)
        | exact visit_orelse_elem_shape _ _ _ _ (by assumption)
        | exact shapeEq_name_right (generic_visit_shape _ _ _ _ (by assumption))
  | .Break => by
    intro st st2 n2 h
    simp only [generic_visit, new_name, declare, push_scope, pop_scope] at h
    iterate 8
      all_goals try (split at h)
      all_goals try (cases h)
    all_goals simp only [shapeEq, shapeEqList, shapeEqOpt, Bool.and_eq_true,
      beq_self_eq_true, true_and, and_true]
    all_goals repeat' apply And.intro
    all_goals
      first
        | rfl
        | exact shapeEq_refl _
        | exact shapeEqList_refl _
        | exact shapeEqOpt_refl _
        | exact declare_args_shape _ _ _ _ (by assumption)
        | exact visit_shape _ _ _ _ (by assumption)
        | exact generic_visit_shape _ _ _ _ (by assumption)
        | exact visit_list_shape _ _ _ _ (by assumption)
        | exact visit_opt_shape _ _ _ _ (by assumption)
        | exact generic_visit_opt_shape _ _ _ _ (by assumption)
        | exact visit_targets_shape _ _ _ _ (by assumption)
        | exact visit_orelse_shape _ _ _ _ (by assumption)
        | exact visit_orelse_elem_shape _ _ _ _ (by assumption)
        | exact shapeEq_name_right (generic_visit_shape _ _ _ _ (by assumption))
  | .BinOp _o _l _r => by
    intro st st2 n2 h
    simp only [generic_visit, new_name, declare, push_scope, pop_scope] at h
    iterate 8
      all_goals try (split at h)
      all_goals try (cases h)
    all_goals simp only [shapeEq, shapeEqList, shapeEqOpt, Bool.and_eq_true,
      beq_self_eq_true, true_and, and_true]
    all_goals repeat' apply And.intro
    all_goals
      first
        | rfl
        | exact shapeEq_refl _
        | exact shapeEqList_refl _
        | exact shapeEqOpt_refl _
        | exact declare_args_shape _ _ _ _ (by assumption)
        | exact visit_shape _ _ _ _ (by assumption)
        | exact generic_visit_shape _ _ _ _ (by assumption)
        | exact visit_list_shape _ _ _ _ (by assumption)
        | exact visit_opt_shape _ _ _ _ (by assumption)
        | exact generic_visit_opt_shape _ _ _ _ (by assumption)
        | exact visit_targets_shape _ _ _ _ (by assumption)
        | exact visit_orelse_shape _ _ _ _ (by assumption)
        | exact visit_orelse_elem_shape _ _ _ _ (by assumption)
        | exact shapeEq_name_right (generic_visit_shape _ _ _ _ (by assumption))
  | .Call _f _a => by
    intro st st2 n2 h
    simp only [generic_visit, new_name, declare, push_scope, pop_scope] at h
    iterate 8
      all_goals try (split at h)
      all_goals try (cases h)
    all_goals simp only [shapeEq, shapeEqList, shapeEqOpt, Bool.and_eq_true,
      beq_self_eq_true, true_and, and_true]
    all_goals repeat' apply And.intro
    all_goals
      first
        | rfl
        | exact shapeEq_refl _
        | exact shapeEqList_refl _
        | exact shapeEqOpt_refl _
        | exact declare_args_shape _ _ _ _ (by assumption)
        | exact visit_shape _ _ _ _ (by assumption)
        | exact generic_visit_shape _ _ _ _ (by assumption)
        | exact visit_list_shape _ _ _ _ (by assumption)
        | exact visit_opt_shape _ _ _ _ (by assumption)
        | exact generic_visit_opt_shape _ _ _ _ (by assumption)
        | exact visit_targets_shape _ _ _ _ (by assumption)
        | exact visit_orelse_shape _ _ _ _ (by assumption)
        | exact visit_orelse_elem_shape _ _ _ _ (by assumption)
        | exact shapeEq_name_right (generic_visit_shape _ _ _ _ (by assumption))
  | .Function _fn _a _b => by
    intro st st2 n2 h
    simp only [generic_visit, new_name, declare, push_scope, pop_scope] at h
    iterate 8
      all_goals try (split at h)
      all_goals try (cases h)
    all_goals simp only [shapeEq, shapeEqList, shapeEqOpt, Bool.and_eq_true,
      beq_self_eq_true, true_and, and_true]
    all_goals repeat' apply And.intro
    all_goals
      first
        | rfl
        | exact shapeEq_refl _
        | exact shapeEqList_refl _
        | exact shapeEqOpt_refl _
        | exact declare_args_shape _ _ _ _ (by assumption)
        | exact visit_shape _ _ _ _ (by assumption)
        | exact generic_visit_shape _ _ _ _ (by assumption)
        | exact visit_list_shape _ _ _ _ (by assumption)
        | exact visit_opt_shape _ _ _ _ (by assumption)
        | exact generic_visit_opt_shape _ _ _ _ (by assumption)
        | exact visit_targets_shape _ _ _ _ (by assumption)
        | exact visit_orelse_shape _ _ _ _ (by assumption)
        | exact visit_orelse_elem_shape _ _ _ _ (by assumption)
        | exact shapeEq_name_right (generic_visit_shape _ _ _ _ (by assumption))
  | .LocalFunction _fn _a _b => by
    intro st st2 n2 h
    simp only [generic_visit, new_name, declare, push_scope, pop_scope] at h
    iterate 8
      all_goals try (split at h)
      all_goals try (cases h)
    all_goals simp only [shapeEq, shapeEqList, shapeEqOpt, Bool.and_eq_true,
      beq_self_eq_true, true_and, and_true]
    all_goals repeat' apply And.intro
    all_goals
      first
        | rfl
        | exact shapeEq_refl _
        | exact shapeEqList_refl _
        | exact shapeEqOpt_refl _
        | exact declare_args_shape _ _ _ _ (by assumption)
        | exact visit_shape _ _ _ _ (by assumption)
        | exact generic_visit_shape _ _ _ _ (by assumption)
        | exact visit_list_shape _ _ _ _ (by assumption)
        | exact visit_opt_shape _ _ _ _ (by assumption)
        | exact generic_visit_opt_shape _ _ _ _ (by assumption)
        | exact visit_targets_shape _ _ _ _ (by assumption)
        | exact visit_orelse_shape _ _ _ _ (by assumption)
        | exact visit_orelse_elem_shape _ _ _ _ (by assumption)
        | exact shapeEq_name_right (generic_visit_shape _ _ _ _ (by assumption))
  | .LocalAssign _t _v => by
    intro st st2 n2 h
    simp only [generic_visit, new_name, declare, push_scope, pop_scope] at h
    iterate 8
      all_goals try (split at h)
      all_goals try (cases h)
    all_goals simp only [shapeEq, shapeEqList, shapeEqOpt, Bool.and_eq_true,
      beq_self_eq_true, true_and, and_true]
    all_goals repeat' apply And.intro
    all_goals
      first
        | rfl
        | exact shapeEq_refl _
        | exact shapeEqList_refl _
        | exact shapeEqOpt_refl _
        | exact declare_args_shape _ _ _ _ (by assumption)
        | exact visit_shape _ _ _ _ (by assumption)
        | exact generic_visit_shape _ _ _ _ (by assumption)
        | exact visit_list_shape _ _ _ _ (by assumption)
        | exact visit_opt_shape _ _ _ _ (by assumption)
        | exact generic_visit_opt_shape _ _ _ _ (by assumption)
        | exact visit_targets_shape _ _ _ _ (by assumption)
        | exact visit_orelse_shape _ _ _ _ (by assumption)
        | exact visit_orelse_elem_shape _ _ _ _ (by assumption)
        | exact shapeEq_name_right (generic_visit_shape _ _ _ _ (by assumption))
  | .For _tg _a _z _sp _b => by
    intro st st2 n2 h
    simp only [generic_visit, new_name, declare, push_scope, pop_scope] at h
    iterate 8
      all_goals try (split at h)
      all_goals try (cases h)
    all_goals simp only [shapeEq, shapeEqList, shapeEqOpt, Bool.and_eq_true,
      beq_self_eq_true, true_and, and_true]
    all_goals repeat' apply And.intro
    all_goals
      first
        | rfl
        | exact shapeEq_refl _
        | exact shapeEqList_refl _
        | exact shapeEqOpt_refl _
        | exact declare_args_shape _ _ _ _ (by assumption)
        | exact visit_shape _ _ _ _ (by assumption)
        | exact generic_visit_shape _ _ _ _ (by assumption)
        | exact visit_list_shape _ _ _ _ (by assumption)
        | exact visit_opt_shape _ _ _ _ (by assumption)
        | exact generic_visit_opt_shape _ _ _ _ (by assumption)
        | exact visit_targets_shape _ _ _ _ (by assumption)
        | exact visit_orelse_shape _ _ _ _ (by assumption)
        | exact visit_orelse_elem_shape _ _ _ _ (by assumption)
        | exact shapeEq_name_right (generic_visit_shape _ _ _ _ (by assumption))
  | .Forin _t _i _b => by
    intro st st2 n2 h
    simp only [generic_visit, new_name, declare, push_scope, pop_scope] at h
    iterate 8
      all_goals try (split at h)
      all_goals try (cases h)
    all_goals simp only [shapeEq, shapeEqList, shapeEqOpt, Bool.and_eq_true,
      beq_self_eq_true, true_and, and_true]
    all_goals repeat' apply And.intro
    all_goals
      first
        | rfl
        | exact shapeEq_refl _
        | exact shapeEqList_refl _
        | exact shapeEqOpt_refl _
        | exact declare_args_shape _ _ _ _ (by assumption)
        | exact visit_shape _ _ _ _ (by assumption)
        | exact generic_visit_shape _ _ _ _ (by assumption)
        | exact visit_list_shape _ _ _ _ (by assumption)
        | exact visit_opt_shape _ _ _ _ (by assumption)
        | exact generic_visit_opt_shape _ _ _ _ (by assumption)
        | exact visit_targets_shape _ _ _ _ (by assumption)
        | exact visit_orelse_shape _ _ _ _ (by assumption)
        | exact visit_orelse_elem_shape _ _ _ _ (by assumption)
        | exact shapeEq_name_right (generic_visit_shape _ _ _ _ (by assumption))
  | .While _t _b => by
    intro st st2 n2 h
    simp only [generic_visit, new_name, declare, push_scope, pop_scope] at h
    iterate 8
      all_goals try (split at h)
      all_goals try (cases h)
    all_goals simp only [shapeEq, shapeEqList, shapeEqOpt, Bool.and_eq_true,
      beq_self_eq_true, true_and, and_true]
    all_goals repeat' apply And.intro
    all_goals
      first
        | rfl
        | exact shapeEq_refl _
        | exact shapeEqList_refl _
        | exact shapeEqOpt_refl _
        | exact declare_args_shape _ _ _ _ (by assumption)
        | exact visit_shape _ _ _ _ (by assumption)
        | exact generic_visit_shape _ _ _ _ (by assumption)
        | exact visit_list_shape _ _ _ _ (by assumption)
        | exact visit_opt_shape _ _ _ _ (by assumption)
        | exact generic_visit_opt_shape _ _ _ _ (by assumption)
        | exact visit_targets_shape _ _ _ _ (by assumption)
        | exact visit_orelse_shape _ _ _ _ (by assumption)
        | exact visit_orelse_elem_shape _ _ _ _ (by assumption)
        | exact shapeEq_name_right (generic_visit_shape _ _ _ _ (by assumption))
  | .Repeat _b _t => by
    intro st st2 n2 h
    simp only [generic_visit, new_name, declare, push_scope, pop_scope] at h
    iterate 8
      all_goals try (split at h)
      all_goals try (cases h)
    all_goals simp only [shapeEq, shapeEqList, shapeEqOpt, Bool.and_eq_true,
      beq_self_eq_true, true_and, and_true]
    all_goals repeat' apply And.intro
    all_goals
      first
        | rfl
        | exact shapeEq_refl _
        | exact shapeEqList_refl _
        | exact shapeEqOpt_refl _
        | exact declare_args_shape _ _ _ _ (by assumption)
        | exact visit_shape _ _ _ _ (by assumption)
        | exact generic_visit_shape _ _ _ _ (by assumption)
        | exact visit_list_shape _ _ _ _ (by assumption)
        | exact visit_opt_shape _ _ _ _ (by assumption)
        | exact generic_visit_opt_shape _ _ _ _ (by assumption)
        | exact visit_targets_shape _ _ _ _ (by assumption)
        | exact visit_orelse_shape _ _ _ _ (by assumption)
        | exact visit_orelse_elem_shape _ _ _ _ (by assumption)
        | exact shapeEq_name_right (generic_visit_shape _ _ _ _ (by assumption))
  | .If _t _b _o => by
    intro st st2 n2 h
    simp only [generic_visit, new_name, declare, push_scope, pop_scope] at h
    iterate 8
      all_goals try (split at h)
      all_goals try (cases h)
    all_goals simp only [shapeEq, shapeEqList, shapeEqOpt, Bool.and_eq_true,
      beq_self_eq_true, true_and, and_true]
    all_goals repeat' apply And.intro
    all_goals
      first
        | rfl
        | exact shapeEq_refl _
        | exact shapeEqList_refl _
        | exact shapeEqOpt_refl _
        | exact declare_args_shape _ _ _ _ (by assumption)
        | exact visit_shape _ _ _ _ (by assumption)
        | exact generic_visit_shape _ _ _ _ (by assumption)
        | exact visit_list_shape _ _ _ _ (by assumption)
        | exact visit_opt_shape _ _ _ _ (by assumption)
        | exact generic_visit_opt_shape _ _ _ _ (by assumption)
        | exact visit_targets_shape _ _ _ _ (by assumption)
        | exact visit_orelse_shape _ _ _ _ (by assumption)
        | exact visit_orelse_elem_shape _ _ _ _ (by assumption)
        | exact shapeEq_name_right (generic_visit_shape _ _ _ _ (by assumption))
  | .ElseIf _t _b => by
    intro st st2 n2 h
    simp only [generic_visit, new_name, declare, push_scope, pop_scope] at h
    iterate 8
      all_goals try (split at h)
      all_goals try (cases h)
    all_goals simp only [shapeEq, shapeEqList, shapeEqOpt, Bool.and_eq_true,
      beq_self_eq_true, true_and, and_true]
    all_goals repeat' apply And.intro
    all_goals
      first
        | rfl
        | exact shapeEq_refl _
        | exact shapeEqList_refl _
        | exact shapeEqOpt_refl _
        | exact declare_args_shape _ _ _ _ (by assumption)
        | exact visit_shape _ _ _ _ (by assumption)
        | exact generic_visit_shape _ _ _ _ (by assumption)
        | exact visit_list_shape _ _ _ _ (by assumption)
        | exact visit_opt_shape _ _ _ _ (by assumption)
        | exact generic_visit_opt_shape _ _ _ _ (by assumption)
        | exact visit_targets_shape _ _ _ _ (by assumption)
        | exact visit_orelse_shape _ _ _ _ (by assumption)
        | exact visit_orelse_elem_shape _ _ _ _ (by assumption)
        | exact shapeEq_name_right (generic_visit_shape _ _ _ _ (by assumption))
  | .Do _b => by
    intro st st2 n2 h
    simp only [generic_visit, new_name, declare, push_scope, pop_scope] at h
    iterate 8
      all_goals try (split at h)
      all_goals try (cases h)
    all_goals simp only [shapeEq, shapeEqList, shapeEqOpt, Bool.and_eq_true,
      beq_self_eq_true, true_and, and_true]
    all_goals repeat' apply And.intro
    all_goals
      first
        | rfl
        | exact shapeEq_refl _
        | exact shapeEqList_refl _
        | exact shapeEqOpt_refl _
        | exact declare_args_shape _ _ _ _ (by assumption)
        | exact visit_shape _ _ _ _ (by assumption)
        | exact generic_visit_shape _ _ _ _ (by assumption)
        | exact visit_list_shape _ _ _ _ (by assumption)
        | exact visit_opt_shape _ _ _ _ (by assumption)
        | exact generic_visit_opt_shape _ _ _ _ (by assumption)
        | exact visit_targets_shape _ _ _ _ (by assumption)
        | exact visit_orelse_shape _ _ _ _ (by assumption)
        | exact visit_orelse_elem_shape _ _ _ _ (by assumption)
        | exact shapeEq_name_right (generic_visit_shape _ _ _ _ (by assumption))
  | .Return _v => by
    intro st st2 n2 h
    simp only [generic_visit, new_name, declare, push_scope, pop_scope] at h
    iterate 8
      all_goals try (split at h)
      all_goals try (cases h)
    all_goals simp only [shapeEq, shapeEqList, shapeEqOpt, Bool.and_eq_true,
      beq_self_eq_true, true_and, and_true]
    all_goals repeat' apply And.intro
    all_goals
      first
        | rfl
        | exact shapeEq_refl _
        | exact shapeEqList_refl _
        | exact shapeEqOpt_refl _
        | exact declare_args_shape _ _ _ _ (by assumption)
        | exact visit_shape _ _ _ _ (by assumption)
        | exact generic_visit_shape _ _ _ _ (by assumption)
        | exact visit_list_shape _ _ _ _ (by assumption)
        | exact visit_opt_shape _ _ _ _ (by assumption)
        | exact generic_visit_opt_shape _ _ _ _ (by assumption)
        | exact visit_targets_shape _ _ _ _ (by assumption)
        | exact visit_orelse_shape _ _ _ _ (by assumption)
        | exact visit_orelse_elem_shape _ _ _ _ (by assumption)
        | exact shapeEq_name_right (generic_visit_shape _ _ _ _ (by assumption))
termination_by structural x => x

/-- Every successful `visit_list` preserves list shape. -/
theorem visit_list_shape : ∀ (l : List Node) (st st2 : St) (l2 : List Node),
    visit_list st l = .ok (st2, l2) → shapeEqList l l2 = true
  | [] => by
    intro st st2 n2 h
    simp only [visit_list, new_name, declare, push_scope, pop_scope] at h
    iterate 8
      all_goals try (split at h)
      all_goals try (cases h)
    all_goals simp only [shapeEq, shapeEqList, shapeEqOpt, Bool.and_eq_true,
      beq_self_eq_true, true_and, and_true]
    all_goals repeat' apply And.intro
    all_goals
      first
        | rfl
        | exact shapeEq_refl _
        | exact shapeEqList_refl _
        | exact shapeEqOpt_refl _
        | exact declare_args_shape _ _ _ _ (by assumption)
        | exact visit_shape _ _ _ _ (by assumption)
        | exact generic_visit_shape _ _ _ _ (by assumption)
        | exact visit_list_shape _ _ _ _ (by assumption)
        | exact visit_opt_shape _ _ _ _ (by assumption)
        | exact generic_visit_opt_shape _ _ _ _ (by assumption)
        | exact visit_targets_shape _ _ _ _ (by assumption)
        | exact visit_orelse_shape _ _ _ _ (by assumption)
        | exact visit_orelse_elem_shape _ _ _ _ (by assumption)
        | exact shapeEq_name_right (generic_visit_shape _ _ _ _ (by assumption))
  | _n :: _rest => by
    intro st st2 n2 h
    simp only [visit_list, new_name, declare, push_scope, pop_scope] at h
    iterate 8
      all_goals try (split at h)
      all_goals try (cases h)
    all_goals simp only [shapeEq, shapeEqList, shapeEqOpt, Bool.and_eq_true,
      beq_self_eq_true, true_and, and_true]
    all_goals repeat' apply And.intro
    all_goals
      first
        | rfl
        | exact shapeEq_refl _
        | exact shapeEqList_refl _
        | exact shapeEqOpt_refl _
        | exact declare_args_shape _ _ _ _ (by assumption)
        | exact visit_shape _ _ _ _ (by assumption)
        | exact generic_visit_shape _ _ _ _ (by assumption)
        | exact visit_list_shape _ _ _ _ (by assumption)
        | exact visit_opt_shape _ _ _ _ (by assumption)
        | exact generic_visit_opt_shape _ _ _ _ (by assumption)
        | exact visit_targets_shape _ _ _ _ (by assumption)
        | exact visit_orelse_shape _ _ _ _ (by assumption)
        | exact visit_orelse_elem_shape _ _ _ _ (by assumption)
        | exact shapeEq_name_right (generic_visit_shape _ _ _ _ (by assumption))
termination_by structural x => x

/-- Every successful `visit_opt` preserves optional-child shape. -/
theorem visit_opt_shape : ∀ (o : Option Node) (st st2 : St) (o2 : Option Node),
    visit_opt st o = .ok (st2, o2) → shapeEqOpt o o2 = true
  | none => by
    intro st st2 n2 h
    simp only [visit_opt, new_name, declare, push_scope, pop_scope] at h
    iterate 8
      all_goals try (split at h)
      all_goals try (cases h)
    all_goals simp only [shapeEq, shapeEqList, shapeEqOpt, Bool.and_eq_true,
      beq_self_eq_true, true_and, and_true]
    all_goals repeat' apply And.intro
    all_goals
      first
        | rfl
        | exact shapeEq_refl _
        | exact shapeEqList_refl _
        | exact shapeEqOpt_refl _
        | exact declare_args_shape _ _ _ _ (by assumption)
        | exact visit_shape _ _ _ _ (by assumption)
        | exact generic_visit_shape _ _ _ _ (by assumption)
        | exact visit_list_shape _ _ _ _ (by assumption)
        | exact visit_opt_shape _ _ _ _ (by assumption)
        | exact generic_visit_opt_shape _ _ _ _ (by assumption)
        | exact visit_targets_shape _ _ _ _ (by assumption)
        | exact visit_orelse_shape _ _ _ _ (by assumption)
        | exact visit_orelse_elem_shape _ _ _ _ (by assumption)
        | exact shapeEq_name_right (generic_visit_shape _ _ _ _ (by assumption))
  | some _n => by
    intro st st2 n2 h
    simp only [visit_opt, new_name, declare, push_scope, pop_scope] at h
    iterate 8
      all_goals try (split at h)
      all_goals try (cases h)
    all_goals simp only [shapeEq, shapeEqList, shapeEqOpt, Bool.and_eq_true,
      beq_self_eq_true, true_and, and_true]
    all_goals repeat' apply And.intro
    all_goals
      first
        | rfl
        | exact shapeEq_refl _
        | exact shapeEqList_refl _
        | exact shapeEqOpt_refl _
        | exact declare_args_shape _ _ _ _ (by assumption)
        | exact visit_shape _ _ _ _ (by assumption)
        | exact generic_visit_shape _ _ _ _ (by assumption)
        | exact visit_list_shape _ _ _ _ (by assumption)
        | exact visit_opt_shape _ _ _ _ (by assumption)
        | exact generic_visit_opt_shape _ _ _ _ (by assumption)
        | exact visit_targets_shape _ _ _ _ (by assumption)
        | exact visit_orelse_shape _ _ _ _ (by assumption)
        | exact visit_orelse_elem_shape _ _ _ _ (by assumption)
        | exact shapeEq_name_right (generic_visit_shape _ _ _ _ (by assumption))
termination_by structural x => x

/-- Every successful `generic_visit_opt` preserves optional-child shape. -/
theorem generic_visit_opt_shape : ∀ (o : Option Node) (st st2 : St) (o2 : Option Node),
    generic_visit_opt st o = .ok (st2, o2) → shapeEqOpt o o2 = true
  | none => by
    intro st st2 n2 h
    simp only [generic_visit_opt, new_name, declare, push_scope, pop_scope] at h
    iterate 8
      all_goals try (split at h)
      all_goals try (cases h)
    all_goals simp only [shapeEq, shapeEqList, shapeEqOpt, Bool.and_eq_true,
      beq_self_eq_true, true_and, and_true]
    all_goals repeat' apply And.intro
    all_goals
      first
        | rfl
        | exact shapeEq_refl _
        | exact shapeEqList_refl _
        | exact shapeEqOpt_refl _
        | exact declare_args_shape _ _ _ _ (by assumption)
        | exact visit_shape _ _ _ _ (by assumption)
        | exact generic_visit_shape _ _ _ _ (by assumption)
        | exact visit_list_shape _ _ _ _ (by assumption)
        | exact visit_opt_shape _ _ _ _ (by assumption)
        | exact generic_visit_opt_shape _ _ _ _ (by assumption)
        | exact visit_targets_shape _ _ _ _ (by assumption)
        | exact visit_orelse_shape _ _ _ _ (by assumption)
        | exact visit_orelse_elem_shape _ _ _ _ (by assumption)
        | exact shapeEq_name_right (generic_visit_shape _ _ _ _ (by assumption))
  | some _n => by
    intro st st2 n2 h
    simp only [generic_visit_opt, new_name, declare, push_scope, pop_scope] at h
    iterate 8
      all_goals try (split at h)
      all_goals try (cases h)
    all_goals simp only [shapeEq, shapeEqList, shapeEqOpt, Bool.and_eq_true,
      beq_self_eq_true, true_and, and_true]
    all_goals repeat' apply And.intro
    all_goals
      first
        | rfl
        | exact shapeEq_refl _
        | exact shapeEqList_refl _
        | exact shapeEqOpt_refl _
        | exact declare_args_shape _ _ _ _ (by assumption)
        | exact visit_shape _ _ _ _ (by assumption)
        | exact generic_visit_shape _ _ _ _ (by assumption)
        | exact visit_list_shape _ _ _ _ (by assumption)
        | exact visit_opt_shape _ _ _ _ (by assumption)
        | exact generic_visit_opt_shape _ _ _ _ (by assumption)
        | exact visit_targets_shape _ _ _ _ (by assumption)
        | exact visit_orelse_shape _ _ _ _ (by assumption)
        | exact visit_orelse_elem_shape _ _ _ _ (by assumption)
        | exact shapeEq_name_right (generic_visit_shape _ _ _ _ (by assumption))
termination_by structural x => x

/-- The `visit_LocalAssign` target loop preserves list shape. -/
theorem visit_targets_shape : ∀ (l : List Node) (st st2 : St) (l2 : List Node),
    visit_targets st l = .ok (st2, l2) → shapeEqList l l2 = true
  | [] => by
    intro st st2 n2 h
    simp only [visit_targets, new_name, declare, push_scope, pop_scope] at h
    iterate 8
      all_goals try (split at h)
      all_goals try (cases h)
    all_goals simp only [shapeEq, shapeEqList, shapeEqOpt, Bool.and_eq_true,
      beq_self_eq_true, true_and, and_true]
    all_goals repeat' apply And.intro
    all_goals
      first
        | rfl
        | exact shapeEq_refl _
        | exact shapeEqList_refl _
        | exact shapeEqOpt_refl _
        | exact declare_args_shape _ _ _ _ (by assumption)
        | exact visit_shape _ _ _ _ (by assumption)
        | exact generic_visit_shape _ _ _ _ (by assumption)
        | exact visit_list_shape _ _ _ _ (by assumption)
        | exact visit_opt_shape _ _ _ _ (by assumption)
        | exact generic_visit_opt_shape _ _ _ _ (by assumption)
        | exact visit_targets_shape _ _ _ _ (by assumption)
        | exact visit_orelse_shape _ _ _ _ (by assumption)
        | exact visit_orelse_elem_shape _ _ _ _ (by assumption)
        | exact shapeEq_name_right (generic_visit_shape _ _ _ _ (by assumption))
  | _t :: _rest => by
    intro st st2 n2 h
    simp only [visit_targets, new_name, declare, push_scope, pop_scope] at h
    iterate 8
      all_goals try (split at h)
      all_goals try (cases h)
    all_goals simp only [shapeEq, shapeEqList, shapeEqOpt, Bool.and_eq_true,
      beq_self_eq_true, true_and, and_true]
    all_goals repeat' apply And.intro
    all_goals
      first
        | rfl
        | exact shapeEq_refl _
        | exact shapeEqList_refl _
        | exact shapeEqOpt_refl _
        | exact declare_args_shape _ _ _ _ (by assumption)
        | exact visit_shape _ _ _ _ (by assumption)
        | exact generic_visit_shape _ _ _ _ (by assumption)
        | exact visit_list_shape _ _ _ _ (by assumption)
        | exact visit_opt_shape _ _ _ _ (by assumption)
        | exact generic_visit_opt_shape _ _ _ _ (by assumption)
        | exact visit_targets_shape _ _ _ _ (by assumption)
        | exact visit_orelse_shape _ _ _ _ (by assumption)
        | exact visit_orelse_elem_shape _ _ _ _ (by assumption)
        | exact shapeEq_name_right (generic_visit_shape _ _ _ _ (by assumption))
termination_by structural x => x

/-- The `visit_If` orelse loop preserves list shape. -/
theorem visit_orelse_shape : ∀ (l : List Node) (st st2 : St) (l2 : List Node),
    visit_orelse st l = .ok (st2, l2) → shapeEqList l l2 = true
  | [] => by
    intro st st2 n2 h
    simp only [visit_orelse, new_name, declare, push_scope, pop_scope] at h
    iterate 8
      all_goals try (split at h)
      all_goals try (cases h)
    all_goals simp only [shapeEq, shapeEqList, shapeEqOpt, Bool.and_eq_true,
      beq_self_eq_true, true_and, and_true]
    all_goals repeat' apply And.intro
    all_goals
      first
        | rfl
        | exact shapeEq_refl _
        | exact shapeEqList_refl _
        | exact shapeEqOpt_refl _
        | exact declare_args_shape _ _ _ _ (by assumption)
        | exact visit_shape _ _ _ _ (by assumption)
        | exact generic_visit_shape _ _ _ _ (by assumption)
        | exact visit_list_shape _ _ _ _ (by assumption)
        | exact visit_opt_shape _ _ _ _ (by assumption)
        | exact generic_visit_opt_shape _ _ _ _ (by assumption)
        | exact visit_targets_shape _ _ _ _ (by assumption)
        | exact visit_orelse_shape _ _ _ _ (by assumption)
        | exact visit_orelse_elem_shape _ _ _ _ (by assumption)
        | exact shapeEq_name_right (generic_visit_shape _ _ _ _ (by assumption))
  | _oe :: _rest => by
    intro st st2 n2 h
    simp only [visit_orelse, new_name, declare, push_scope, pop_scope] at h
    iterate 8
      all_goals try (split at h)
      all_goals try (cases h)
    all_goals simp only [shapeEq, shapeEqList, shapeEqOpt, Bool.and_eq_true,
      beq_self_eq_true, true_and, and_true]
    all_goals repeat' apply And.intro
    all_goals
      first
        | rfl
        | exact shapeEq_refl _
        | exact shapeEqList_refl _
        | exact shapeEqOpt_refl _
        | exact declare_args_shape _ _ _ _ (by assumption)
        | exact visit_shape _ _ _ _ (by assumption)
        | exact generic_visit_shape _ _ _ _ (by assumption)
        | exact visit_list_shape _ _ _ _ (by assumption)
        | exact visit_opt_shape _ _ _ _ (by assumption)
        | exact generic_visit_opt_shape _ _ _ _ (by assumption)
        | exact visit_targets_shape _ _ _ _ (by assumption)
        | exact visit_orelse_shape _ _ _ _ (by assumption)
        | exact visit_orelse_elem_shape _ _ _ _ (by assumption)
        | exact shapeEq_name_right (generic_visit_shape _ _ _ _ (by assumption))
termination_by structural x => x

/-- One orelse element preserves node shape. -/
theorem visit_orelse_elem_shape : ∀ (n : Node) (st st2 : St) (n2 : Node),
    visit_orelse_elem st n = .ok (st2, n2) → shapeEq n n2 = true
  | .Chunk _b => by
    intro st st2 n2 h
    simp only [visit_orelse_elem, new_name, declare, push_scope, pop_scope] at h
    iterate 8
      all_goals try (split at h)
      all_goals try (cases h)
    all_goals simp only [shapeEq, shapeEqList, shapeEqOpt, Bool.and_eq_true,
      beq_self_eq_true, true_and, and_true]
    all_goals repeat' apply And.intro
    all_goals
      first
        | rfl
        | exact shapeEq_refl _
        | exact shapeEqList_refl _
        | exact shapeEqOpt_refl _
        | exact declare_args_shape _ _ _ _ (by assumption)
        | exact visit_shape _ _ _ _ (by assumption)
        | exact generic_visit_shape _ _ _ _ (by assumption)
        | exact visit_list_shape _ _ _ _ (by assumption)
        | exact visit_opt_shape _ _ _ _ (by assumption)
        | exact generic_visit_opt_shape _ _ _ _ (by assumption)
        | exact visit_targets_shape _ _ _ _ (by assumption)
        | exact visit_orelse_shape _ _ _ _ (by assumption)
        | exact visit_orelse_elem_shape _ _ _ _ (by assumption)
        | exact shapeEq_name_right (generic_visit_shape _ _ _ _ (by assumption))
  | .Block _l => by
    intro st st2 n2 h
    simp only [visit_orelse_elem, new_name, declare, push_scope, pop_scope] at h
    iterate 8
      all_goals try (split at h)
      all_goals try (cases h)
    all_goals simp only [shapeEq, shapeEqList, shapeEqOpt, Bool.and_eq_true,
      beq_self_eq_true, true_and, and_true]
    all_goals repeat' apply And.intro
    all_goals
      first
        | rfl
        | exact shapeEq_refl _
        | exact shapeEqList_refl _
        | exact shapeEqOpt_refl _
        | exact declare_args_shape _ _ _ _ (by assumption)
        | exact visit_shape _ _ _ _ (by assumption)
        | exact generic_visit_shape _ _ _ _ (by assumption)
        | exact visit_list_shape _ _ _ _ (by assumption)
        | exact visit_opt_shape _ _ _ _ (by assumption)
        | exact generic_visit_opt_shape _ _ _ _ (by assumption)
        | exact visit_targets_shape _ _ _ _ (by assumption)
        | exact visit_orelse_shape _ _ _ _ (by assumption)
        | exact visit_orelse_elem_shape _ _ _ _ (by assumption)
        | exact shapeEq_name_right (generic_visit_shape _ _ _ _ (by assumption))
  | .Name _i => by
    intro st st2 n2 h
    simp only [visit_orelse_elem, new_name, declare, push_scope, pop_scope] at h
    iterate 8
      all_goals try (split at h)
      all_goals try (cases h)
    all_goals simp only [shapeEq, shapeEqList, shapeEqOpt, Bool.and_eq_true,
      beq_self_eq_true, true_and, and_true]
    all_goals repeat' apply And.intro
    all_goals
      first
        | rfl
        | exact shapeEq_refl _
        | exact shapeEqList_refl _
        | exact shapeEqOpt_refl _
        | exact declare_args_shape _ _ _ _ (by assumption)
        | exact visit_shape _ _ _ _ (by assumption)
        | exact generic_visit_shape _ _ _ _ (by assumption)
        | exact visit_list_shape _ _ _ _ (by assumption)
        | exact visit_opt_shape _ _ _ _ (by assumption)
        | exact generic_visit_opt_shape _ _ _ _ (by assumption)
        | exact visit_targets_shape _ _ _ _ (by assumption)
        | exact visit_orelse_shape _ _ _ _ (by assumption)
        | exact visit_orelse_elem_shape _ _ _ _ (by assumption)
        | exact shapeEq_name_right (generic_visit_shape _ _ _ _ (by assumption))
  | .Number _v => by
    intro st st2 n2 h
    simp only [visit_orelse_elem, new_name, declare, push_scope, pop_scope] at h
    iterate 8
      all_goals try (split at h)
      all_goals try (cases h)
    all_goals simp only [shapeEq, shapeEqList, shapeEqOpt, Bool.and_eq_true,
      beq_self_eq_true, true_and, and_true]
    all_goals repeat' apply And.intro
    all_goals
      first
        | rfl
        | exact shapeEq_refl _
        | exact shapeEqList_refl _
        | exact shapeEqOpt_refl _
        | exact declare_args_shape _ _ _ _ (by assumption)
        | exact visit_shape _ _ _ _ (by assumption)
        | exact generic_visit_shape _ _ _ _ (by assumption)
        | exact visit_list_shape _ _ _ _ (by assumption)
        | exact visit_opt_shape _ _ _ _ (by assumption)
        | exact generic_visit_opt_shape _ _ _ _ (by assumption)
        | exact visit_targets_shape _ _ _ _ (by assumption)
        | exact visit_orelse_shape _ _ _ _ (by assumption)
        | exact visit_orelse_elem_shape _ _ _ _ (by assumption)
        | exact shapeEq_name_right (generic_visit_shape _ _ _ _ (by assumption))
  | .Str _s => by
    intro st st2 n2 h
    simp only [visit_orelse_elem, new_name, declare, push_scope, pop_scope] at h
    iterate 8
      all_goals try (split at h)
      all_goals try (cases h)
    all_goals simp only [shapeEq, shapeEqList, shapeEqOpt, Bool.and_eq_true,
      beq_self_eq_true, true_and, and_true]
    all_goals repeat' apply And.intro
    all_goals
      first
        | rfl
        | exact shapeEq_refl _
        | exact shapeEqList_refl _
        | exact shapeEqOpt_refl _
        | exact declare_args_shape _ _ _ _ (by assumption)
        | exact visit_shape _ _ _ _ (by assumption)
        | exact generic_visit_shape _ _ _ _ (by assumption)
        | exact visit_list_shape _ _ _ _ (by assumption)
        | exact visit_opt_shape _ _ _ _ (by assumption)
        | exact generic_visit_opt_shape _ _ _ _ (by assumption)
        | exact visit_targets_shape _ _ _ _ (by assumption)
        | exact visit_orelse_shape _ _ _ _ (by assumption)
        | exact visit_orelse_elem_shape _ _ _ _ (by assumption)
        | exact shapeEq_name_right (generic_visit_shape _ _ _ _ (by assumption))
  | .Nil => by
    intro st st2 n2 h
    simp only [visit_orelse_elem, new_name, declare, push_scope, pop_scope] at h
    iterate 8
      all_goals try (split at h)
      all_goals try (cases h)
    all_goals simp only [shapeEq, shapeEqList, shapeEqOpt, Bool.and_eq_true,
      beq_self_eq_true, true_and, and_true]
    all_goals repeat' apply And.intro
    all_goals
      first
        | rfl
        | exact shapeEq_refl _
        | exact shapeEqList_refl _
        | exact shapeEqOpt_refl _
        | exact declare_args_shape _ _ _ _ (by assumption)
        | exact visit_shape _ _ _ _ (by assumption)
        | exact generic_visit_shape _ _ _ _ (by assumption)
        | exact visit_list_shape _ _ _ _ (by assumption)
        | exact visit_opt_shape _ _ _ _ (by assumption)
        | exact generic_visit_opt_shape _ _ _ _ (by assumption)
        | exact visit_targets_shape _ _ _ _ (by assumption)
        | exact visit_orelse_shape _ _ _ _ (by assumption)
        | exact visit_orelse_elem_shape _ _ _ _ (by assumption)
        | exact shapeEq_name_right (generic_visit_shape _ _ _ _ (by assumption))
  | .TrueExpr => by
    intro st st2 n2 h
    simp only [visit_orelse_elem, new_name, declare, push_scope, pop_scope] at h
    iterate 8
      all_goals try (split at h)
      all_goals try (cases h)
    all_goals simp only [shapeEq, shapeEqList, shapeEqOpt, Bool.and_eq_true,
      beq_self_eq_true, true_and, and_true]
    all_goals repeat' apply And.intro
    all_goals
      first
        | rfl
        | exact shapeEq_refl _
        | exact shapeEqList_refl _
        | exact shapeEqOpt_refl _
        | exact declare_args_shape _ _ _ _ (by assumption)
        | exact visit_shape _ _ _ _ (by assumption)
        | exact generic_visit_shape _ _ _ _ (by assumption)
        | exact visit_list_shape _ _ _ _ (by assumption)
        | exact visit_opt_shape _ _ _ _ (by assumption)
        | exact generic_visit_opt_shape _ _ _ _ (by assumption)
        | exact visit_targets_shape _ _ _ _ (by assumption)
        | exact visit_orelse_shape _ _ _ _ (by assumption)
        | exact visit_orelse_elem_shape _ _ _ _ (by assumption)
        | exact shapeEq_name_right (generic_visit_shape _ _ _ _ (by assumption))
  | .FalseExpr => by
    intro st st2 n2 h
    simp only [visit_orelse_elem, new_name, declare, push_scope, pop_scope] at h
    iterate 8
      all_goals try (split at h)
      all_goals try (cases h)
    all_goals simp only [shapeEq, shapeEqList, shapeEqOpt, Bool.and_eq_true,
      beq_self_eq_true, true_and, and_true]
    all_goals repeat' apply And.intro
    all_goals
      first
        | rfl
        | exact shapeEq_refl _
        | exact shapeEqList_refl _
        | exact shapeEqOpt_refl _
        | exact declare_args_shape _ _ _ _ (by assumption)
        | exact visit_shape _ _ _ _ (by assumption)
        | exact generic_visit_shape _ _ _ _ (by assumption)
        | exact visit_list_shape _ _ _ _ (by assumption)
        | exact visit_opt_shape _ _ _ _ (by assumption)
        | exact generic_visit_opt_shape _ _ _ _ (by assumption)
        | exact visit_targets_shape _ _ _ _ (by assumption)
        | exact visit_orelse_shape _ _ _ _ (by assumption)
        | exact visit_orelse_elem_shape _ _ _ _ (by assumption)
        | exact shapeEq_name_right (generic_visit_shape _ _ _ _ (by assumption))
  | .Break => by
    intro st st2 n2 h
    simp only [visit_orelse_elem, new_name, declare, push_scope, pop_scope] at h
    iterate 8
      all_goals try (split at h)
      all_goals try (cases h)
    all_goals simp only [shapeEq, shapeEqList, shapeEqOpt, Bool.and_eq_true,
      beq_self_eq_true, true_and, and_true]
    all_goals repeat' apply And.intro
    all_goals
      first
        | rfl
        | exact shapeEq_refl _
        | exact shapeEqList_refl _
        | exact shapeEqOpt_refl _
        | exact declare_args_shape _ _ _ _ (by assumption)
        | exact visit_shape _ _ _ _ (by assumption)
        | exact generic_visit_shape _ _ _ _ (by assumption)
        | exact visit_list_shape _ _ _ _ (by assumption)
        | exact visit_opt_shape _ _ _ _ (by assumption)
        | exact generic_visit_opt_shape _ _ _ _ (by assumption)
        | exact visit_targets_shape _ _ _ _ (by assumption)
        | exact visit_orelse_shape _ _ _ _ (by assumption)
        | exact visit_orelse_elem_shape _ _ _ _ (by assumption)
        | exact shapeEq_name_right (generic_visit_shape _ _ _ _ (by assumption))
  | .BinOp _o _l _r => by
    intro st st2 n2 h
    simp only [visit_orelse_elem, new_name, declare, push_scope, pop_scope] at h
    iterate 8
      all_goals try (split at h)
      all_goals try (cases h)
    all_goals simp only [shapeEq, shapeEqList, shapeEqOpt, Bool.and_eq_true,
      beq_self_eq_true, true_and, and_true]
    all_goals repeat' apply And.intro
    all_goals
      first
        | rfl
        | exact shapeEq_refl _
        | exact shapeEqList_refl _
        | exact shapeEqOpt_refl _
        | exact declare_args_shape _ _ _ _ (by assumption)
        | exact visit_shape _ _ _ _ (by assumption)
        | exact generic_visit_shape _ _ _ _ (by assumption)
        | exact visit_list_shape _ _ _ _ (by assumption)
        | exact visit_opt_shape _ _ _ _ (by assumption)
        | exact generic_visit_opt_shape _ _ _ _ (by assumption)
        | exact visit_targets_shape _ _ _ _ (by assumption)
        | exact visit_orelse_shape _ _ _ _ (by assumption)
        | exact visit_orelse_elem_shape _ _ _ _ (by assumption)
        | exact shapeEq_name_right (generic_visit_shape _ _ _ _ (by assumption))
  | .Call _f _a => by
    intro st st2 n2 h
    simp only [visit_orelse_elem, new_name, declare, push_scope, pop_scope] at h
    iterate 8
      all_goals try (split at h)
      all_goals try (cases h)
    all_goals simp only [shapeEq, shapeEqList, shapeEqOpt, Bool.and_eq_true,
      beq_self_eq_true, true_and, and_true]
    all_goals repeat' apply And.intro
    all_goals
      first
        | rfl
        | exact shapeEq_refl _
        | exact shapeEqList_refl _
        | exact shapeEqOpt_refl _
        | exact declare_args_shape _ _ _ _ (by assumption)
        | exact visit_shape _ _ _ _ (by assumption)
        | exact generic_visit_shape _ _ _ _ (by assumption)
        | exact visit_list_shape _ _ _ _ (by assumption)
        | exact visit_opt_shape _ _ _ _ (by assumption)
        | exact generic_visit_opt_shape _ _ _ _ (by assumption)
        | exact visit_targets_shape _ _ _ _ (by assumption)
        | exact visit_orelse_shape _ _ _ _ (by assumption)
        | exact visit_orelse_elem_shape _ _ _ _ (by assumption)
        | exact shapeEq_name_right (generic_visit_shape _ _ _ _ (by assumption))
  | .Function _fn _a _b => by
    intro st st2 n2 h
    simp only [visit_orelse_elem, new_name, declare, push_scope, pop_scope] at h
    iterate 8
      all_goals try (split at h)
      all_goals try (cases h)
    all_goals simp only [shapeEq, shapeEqList, shapeEqOpt, Bool.and_eq_true,
      beq_self_eq_true, true_and, and_true]
    all_goals repeat' apply And.intro
    all_goals
      first
        | rfl
        | exact shapeEq_refl _
        | exact shapeEqList_refl _
        | exact shapeEqOpt_refl _
        | exact declare_args_shape _ _ _ _ (by assumption)
        | exact visit_shape _ _ _ _ (by assumption)
        | exact generic_visit_shape _ _ _ _ (by assumption)
        | exact visit_list_shape _ _ _ _ (by assumption)
        | exact visit_opt_shape _ _ _ _ (by assumption)
        | exact generic_visit_opt_shape _ _ _ _ (by assumption)
        | exact visit_targets_shape _ _ _ _ (by assumption)
        | exact visit_orelse_shape _ _ _ _ (by assumption)
        | exact visit_orelse_elem_shape _ _ _ _ (by assumption)
        | exact shapeEq_name_right (generic_visit_shape _ _ _ _ (by assumption))
  | .LocalFunction _fn _a _b => by
    intro st st2 n2 h
    simp only [visit_orelse_elem, new_name, declare, push_scope, pop_scope] at h
    iterate 8
      all_goals try (split at h)
      all_goals try (cases h)
    all_goals simp only [shapeEq, shapeEqList, shapeEqOpt, Bool.and_eq_true,
      beq_self_eq_true, true_and, and_true]
    all_goals repeat' apply And.intro
    all_goals
      first
        | rfl
        | exact shapeEq_refl _
        | exact shapeEqList_refl _
        | exact shapeEqOpt_refl _
        | exact declare_args_shape _ _ _ _ (by assumption)
        | exact visit_shape _ _ _ _ (by assumption)
        | exact generic_visit_shape _ _ _ _ (by assumption)
        | exact visit_list_shape _ _ _ _ (by assumption)
        | exact visit_opt_shape _ _ _ _ (by assumption)
        | exact generic_visit_opt_shape _ _ _ _ (by assumption)
        | exact visit_targets_shape _ _ _ _ (by assumption)
        | exact visit_orelse_shape _ _ _ _ (by assumption)
        | exact visit_orelse_elem_shape _ _ _ _ (by assumption)
        | exact shapeEq_name_right (generic_visit_shape _ _ _ _ (by assumption))
  | .LocalAssign _t _v => by
    intro st st2 n2 h
    simp only [visit_orelse_elem, new_name, declare, push_scope, pop_scope] at h
    iterate 8
      all_goals try (split at h)
      all_goals try (cases h)
    all_goals simp only [shapeEq, shapeEqList, shapeEqOpt, Bool.and_eq_true,
      beq_self_eq_true, true_and, and_true]
    all_goals repeat' apply And.intro
    all_goals
      first
        | rfl
        | exact shapeEq_refl _
        | exact shapeEqList_refl _
        | exact shapeEqOpt_refl _
        | exact declare_args_shape _ _ _ _ (by assumption)
        | exact visit_shape _ _ _ _ (by assumption)
        | exact generic_visit_shape _ _ _ _ (by assumption)
        | exact visit_list_shape _ _ _ _ (by assumption)
        | exact visit_opt_shape _ _ _ _ (by assumption)
        | exact generic_visit_opt_shape _ _ _ _ (by assumption)
        | exact visit_targets_shape _ _ _ _ (by assumption)
        | exact visit_orelse_shape _ _ _ _ (by assumption)
        | exact visit_orelse_elem_shape _ _ _ _ (by assumption)
        | exact shapeEq_name_right (generic_visit_shape _ _ _ _ (by assumption))
  | .For _tg _a _z _sp _b => by
    intro st st2 n2 h
    simp only [visit_orelse_elem, new_name, declare, push_scope, pop_scope] at h
    iterate 8
      all_goals try (split at h)
      all_goals try (cases h)
    all_goals simp only [shapeEq, shapeEqList, shapeEqOpt, Bool.and_eq_true,
      beq_self_eq_true, true_and, and_true]
    all_goals repeat' apply And.intro
    all_goals
      first
        | rfl
        | exact shapeEq_refl _
        | exact shapeEqList_refl _
        | exact shapeEqOpt_refl _
        | exact declare_args_shape _ _ _ _ (by assumption)
        | exact visit_shape _ _ _ _ (by assumption)
        | exact generic_visit_shape _ _ _ _ (by assumption)
        | exact visit_list_shape _ _ _ _ (by assumption)
        | exact visit_opt_shape _ _ _ _ (by assumption)
        | exact generic_visit_opt_shape _ _ _ _ (by assumption)
        | exact visit_targets_shape _ _ _ _ (by assumption)
        | exact visit_orelse_shape _ _ _ _ (by assumption)
        | exact visit_orelse_elem_shape _ _ _ _ (by assumption)
        | exact shapeEq_name_right (generic_visit_shape _ _ _ _ (by assumption))
  | .Forin _t _i _b => by
    intro st st2 n2 h
    simp only [visit_orelse_elem, new_name, declare, push_scope, pop_scope] at h
    iterate 8
      all_goals try (split at h)
      all_goals try (cases h)
    all_goals simp only [shapeEq, shapeEqList, shapeEqOpt, Bool.and_eq_true,
      beq_self_eq_true, true_and, and_true]
    all_goals repeat' apply And.intro
    all_goals
      first
        | rfl
        | exact shapeEq_refl _
        | exact shapeEqList_refl _
        | exact shapeEqOpt_refl _
        | exact declare_args_shape _ _ _ _ (by assumption)
        | exact visit_shape _ _ _ _ (by assumption)
        | exact generic_visit_shape _ _ _ _ (by assumption)
        | exact visit_list_shape _ _ _ _ (by assumption)
        | exact visit_opt_shape _ _ _ _ (by assumption)
        | exact generic_visit_opt_shape _ _ _ _ (by assumption)
        | exact visit_targets_shape _ _ _ _ (by assumption)
        | exact visit_orelse_shape _ _ _ _ (by assumption)
        | exact visit_orelse_elem_shape _ _ _ _ (by assumption)
        | exact shapeEq_name_right (generic_visit_shape _ _ _ _ (by assumption))
  | .While _t _b => by
    intro st st2 n2 h
    simp only [visit_orelse_elem, new_name, declare, push_scope, pop_scope] at h
    iterate 8
      all_goals try (split at h)
      all_goals try (cases h)
    all_goals simp only [shapeEq, shapeEqList, shapeEqOpt, Bool.and_eq_true,
      beq_self_eq_true, true_and, and_true]
    all_goals repeat' apply And.intro
    all_goals
      first
        | rfl
        | exact shapeEq_refl _
        | exact shapeEqList_refl _
        | exact shapeEqOpt_refl _
        | exact declare_args_shape _ _ _ _ (by assumption)
        | exact visit_shape _ _ _ _ (by assumption)
        | exact generic_visit_shape _ _ _ _ (by assumption)
        | exact visit_list_shape _ _ _ _ (by assumption)
        | exact visit_opt_shape _ _ _ _ (by assumption)
        | exact generic_visit_opt_shape _ _ _ _ (by assumption)
        | exact visit_targets_shape _ _ _ _ (by assumption)
        | exact visit_orelse_shape _ _ _ _ (by assumption)
        | exact visit_orelse_elem_shape _ _ _ _ (by assumption)
        | exact shapeEq_name_right (generic_visit_shape _ _ _ _ (by assumption))
  | .Repeat _b _t => by
    intro st st2 n2 h
    simp only [visit_orelse_elem, new_name, declare, push_scope, pop_scope] at h
    iterate 8
      all_goals try (split at h)
      all_goals try (cases h)
    all_goals simp only [shapeEq, shapeEqList, shapeEqOpt, Bool.and_eq_true,
      beq_self_eq_true, true_and, and_true]
    all_goals repeat' apply And.intro
    all_goals
      first
        | rfl
        | exact shapeEq_refl _
        | exact shapeEqList_refl _
        | exact shapeEqOpt_refl _
        | exact declare_args_shape _ _ _ _ (by assumption)
        | exact visit_shape _ _ _ _ (by assumption)
        | exact generic_visit_shape _ _ _ _ (by assumption)
        | exact visit_list_shape _ _ _ _ (by assumption)
        | exact visit_opt_shape _ _ _ _ (by assumption)
        | exact generic_visit_opt_shape _ _ _ _ (by assumption)
        | exact visit_targets_shape _ _ _ _ (by assumption)
        | exact visit_orelse_shape _ _ _ _ (by assumption)
        | exact visit_orelse_elem_shape _ _ _ _ (by assumption)
        | exact shapeEq_name_right (generic_visit_shape _ _ _ _ (by assumption))
  | .If _t _b _o => by
    intro st st2 n2 h
    simp only [visit_orelse_elem, new_name, declare, push_scope, pop_scope] at h
    iterate 8
      all_goals try (split at h)
      all_goals try (cases h)
    all_goals simp only [shapeEq, shapeEqList, shapeEqOpt, Bool.and_eq_true,
      beq_self_eq_true, true_and, and_true]
    all_goals repeat' apply And.intro
    all_goals
      first
        | rfl
        | exact shapeEq_refl _
        | exact shapeEqList_refl _
        | exact shapeEqOpt_refl _
        | exact declare_args_shape _ _ _ _ (by assumption)
        | exact visit_shape _ _ _ _ (by assumption)
        | exact generic_visit_shape _ _ _ _ (by assumption)
        | exact visit_list_shape _ _ _ _ (by assumption)
        | exact visit_opt_shape _ _ _ _ (by assumption)
        | exact generic_visit_opt_shape _ _ _ _ (by assumption)
        | exact visit_targets_shape _ _ _ _ (by assumption)
        | exact visit_orelse_shape _ _ _ _ (by assumption)
        | exact visit_orelse_elem_shape _ _ _ _ (by assumption)
        | exact shapeEq_name_right (generic_visit_shape _ _ _ _ (by assumption))
  | .ElseIf _t _b => by
    intro st st2 n2 h
    simp only [visit_orelse_elem, new_name, declare, push_scope, pop_scope] at h
    iterate 8
      all_goals try (split at h)
      all_goals try (cases h)
    all_goals simp only [shapeEq, shapeEqList, shapeEqOpt, Bool.and_eq_true,
      beq_self_eq_true, true_and, and_true]
    all_goals repeat' apply And.intro
    all_goals
      first
        | rfl
        | exact shapeEq_refl _
        | exact shapeEqList_refl _
        | exact shapeEqOpt_refl _
        | exact declare_args_shape _ _ _ _ (by assumption)
        | exact visit_shape _ _ _ _ (by assumption)
        | exact generic_visit_shape _ _ _ _ (by assumption)
        | exact visit_list_shape _ _ _ _ (by assumption)
        | exact visit_opt_shape _ _ _ _ (by assumption)
        | exact generic_visit_opt_shape _ _ _ _ (by assumption)
        | exact visit_targets_shape _ _ _ _ (by assumption)
        | exact visit_orelse_shape _ _ _ _ (by assumption)
        | exact visit_orelse_elem_shape _ _ _ _ (by assumption)
        | exact shapeEq_name_right (generic_visit_shape _ _ _ _ (by assumption))
  | .Do _b => by
    intro st st2 n2 h
    simp only [visit_orelse_elem, new_name, declare, push_scope, pop_scope] at h
    iterate 8
      all_goals try (split at h)
      all_goals try (cases h)
    all_goals simp only [shapeEq, shapeEqList, shapeEqOpt, Bool.and_eq_true,
      beq_self_eq_true, true_and, and_true]
    all_goals repeat' apply And.intro
    all_goals
      first
        | rfl
        | exact shapeEq_refl _
        | exact shapeEqList_refl _
        | exact shapeEqOpt_refl _
        | exact declare_args_shape _ _ _ _ (by assumption)
        | exact visit_shape _ _ _ _ (by assumption)
        | exact generic_visit_shape _ _ _ _ (by assumption)
        | exact visit_list_shape _ _ _ _ (by assumption)
        | exact visit_opt_shape _ _ _ _ (by assumption)
        | exact generic_visit_opt_shape _ _ _ _ (by assumption)
        | exact visit_targets_shape _ _ _ _ (by assumption)
        | exact visit_orelse_shape _ _ _ _ (by assumption)
        | exact visit_orelse_elem_shape _ _ _ _ (by assumption)
        | exact shapeEq_name_right (generic_visit_shape _ _ _ _ (by assumption))
  | .Return _v => by
    intro st st2 n2 h
    simp only [visit_orelse_elem, new_name, declare, push_scope, pop_scope] at h
    iterate 8
      all_goals try (split at h)
      all_goals try (cases h)
    all_goals simp only [shapeEq, shapeEqList, shapeEqOpt, Bool.and_eq_true,
      beq_self_eq_true, true_and, and_true]
    all_goals repeat' apply And.intro
    all_goals
      first
        | rfl
        | exact shapeEq_refl _
        | exact shapeEqList_refl _
        | exact shapeEqOpt_refl _
        | exact declare_args_shape _ _ _ _ (by assumption)
        | exact visit_shape _ _ _ _ (by assumption)
        | exact generic_visit_shape _ _ _ _ (by assumption)
        | exact visit_list_shape _ _ _ _ (by assumption)
        | exact visit_opt_shape _ _ _ _ (by assumption)
        | exact generic_visit_opt_shape _ _ _ _ (by assumption)
        | exact visit_targets_shape _ _ _ _ (by assumption)
        | exact visit_orelse_shape _ _ _ _ (by assumption)
        | exact visit_orelse_elem_shape _ _ _ _ (by assumption)
        | exact shapeEq_name_right (generic_visit_shape _ _ _ _ (by assumption))
termination_by structural x => x

end

/-- C8: a completed traversal mutates only textual identifier fields —
for every input tree on which `visit` succeeds, the output tree has the
same node kinds, the same child counts and order, and the same literal
values and operators as the input; only `Name` text may differ. -/
theorem c8_shape_preservation (st : St) (n : Node) (st2 : St) (n2 : Node)
    (h : visit st n = .ok (st2, n2)) : shapeEq n n2 = true :=
  visit_shape n st st2 n2 h

theorem c8_witness :
    shapeEq
      (.Chunk (.Block [.LocalFunction (.Name "add") [.Name "a", .Name "b"]
        (.Block [.Return [.BinOp "+" (.Name "a") (.Name "b")]]),
        .Return [.Call (.Name "add") [.Number 1, .Number 2]]]))
      (.Chunk (.Block [.LocalFunction (.Name "var1") [.Name "var2", .Name "var3"]
        (.Block [.Return [.BinOp "+" (.Name "var2") (.Name "var3")]]),
        .Return [.Call (.Name "var1") [.Number 1, .Number 2]]])) = true :=
  c8_shape_preservation initSt _ ⟨[[]], 3⟩ _ (by with_unfolding_all rfl)
